import Mathlib

/-!
Verification development for the webmeshproj/operator controller.

We shallowly embed the operator's configuration-rendering and child-object
factory logic (api/v1 naming and merge helpers, the nodeconfig renderer, the
Traefik edge-proxy config renderer, the StatefulSet/Pod factories, and the
load-balancer external-IP lookup) and prove properties about them.

Conventions:
* Go pointers become `Option`; Go maps become association lists (`List (k × v)`)
  whose order models the (unspecified) iteration order of the Go map.
* Machine integers are modelled as `Nat` with explicit reduction modulo `2^32`
  where overflow matters (SHA-256).
* External collaborators (the Go standard library, the webmeshproj/node
  `nodecmd` package) are modelled from the specification; every such
  definition carries a doc comment starting with `Modelled from the spec:`.
-/

namespace Operator

/-! ## Decimal rendering of naturals

Embeds Go's `fmt.Sprintf("%d", n)` (for non-negative values) as an explicit
decimal rendering, with a proof that it is injective. -/

/-- One decimal digit character: `'0' + d`. -/
def digitChar (d : Nat) : Char := Char.ofNat (48 + d)

/-- Decimal digits, fuel-based so the definition reduces in the kernel;
`fuel ≥ n` always suffices since `n / 10 < n` for `n ≥ 10`. -/
def toDecimalAux : Nat → Nat → List Char
  | 0, n => [digitChar n]
  | fuel + 1, n =>
    if n < 10 then [digitChar n]
    else toDecimalAux fuel (n / 10) ++ [digitChar (n % 10)]

/-- Decimal digits of `n`, most significant first. -/
def toDecimal (n : Nat) : List Char := toDecimalAux n n

/-- `fmt.Sprintf("%d", n)` for a non-negative integer. -/
def natDec (n : Nat) : String := ⟨toDecimal n⟩

/-- Numeric value of a digit character. -/
def charVal (c : Char) : Nat := c.toNat - 48

/-- Numeric value of a digit string, most significant first. -/
def listVal (l : List Char) : Nat := l.foldl (fun a c => 10 * a + charVal c) 0

/-! ## Sorted joins

`sort.Strings` / `sort.Sort` on strings followed by `strings.Join(…, ",")`:
we embed the sort as the canonical ascending reordering (insertion sort under
the lexicographic order, which agrees extensionally with Go's sort). -/

/-- The ascending reordering produced by `sort.Strings` / `sort.Sort`. -/
def sortStrings (l : List String) : List String := l.insertionSort (· ≤ ·)

/-- `strings.Join(l, ",")`. -/
def joinComma (l : List String) : String := String.intercalate "," l

/-! ## SHA-256

Embeds Go's `crypto/sha256` (`sha256.Sum256`) over byte lists, with 32-bit
words as `Nat` reduced modulo `2^32`, and the `%x` hex rendering. -/

/-- Reduce to a 32-bit word. -/
def w32 (n : Nat) : Nat := n % 4294967296

/-- 32-bit rotate right. -/
def rotr (x n : Nat) : Nat := w32 ((x >>> n) ||| (x <<< (32 - n)))

def shaCh (x y z : Nat) : Nat := w32 ((x &&& y) ^^^ ((4294967295 ^^^ x) &&& z))

def shaMaj (x y z : Nat) : Nat := w32 ((x &&& y) ^^^ (x &&& z) ^^^ (y &&& z))

def bigSigma0 (x : Nat) : Nat := rotr x 2 ^^^ rotr x 13 ^^^ rotr x 22

def bigSigma1 (x : Nat) : Nat := rotr x 6 ^^^ rotr x 11 ^^^ rotr x 25

def smallSigma0 (x : Nat) : Nat := rotr x 7 ^^^ rotr x 18 ^^^ (x >>> 3)

def smallSigma1 (x : Nat) : Nat := rotr x 17 ^^^ rotr x 19 ^^^ (x >>> 10)

/-- The 64 SHA-256 round constants. -/
def shaK : List Nat :=
  [1116352408, 1899447441, 3049323471, 3921009573, 961987163, 1508970993,
   2453635748, 2870763221, 3624381080, 310598401, 607225278, 1426881987,
   1925078388, 2162078206, 2614888103, 3248222580, 3835390401, 4022224774,
   264347078, 604807628, 770255983, 1249150122, 1555081692, 1996064986,
   2554220882, 2821834349, 2952996808, 3210313671, 3336571891, 3584528711,
   113926993, 338241895, 666307205, 773529912, 1294757372, 1396182291,
   1695183700, 1986661051, 2177026350, 2456956037, 2730485921, 2820302411,
   3259730800, 3345764771, 3516065817, 3600352804, 4094571909, 275423344,
   430227734, 506948616, 659060556, 883997877, 958139571, 1322822218,
   1537002063, 1747873779, 1955562222, 2024104815, 2227730452, 2361852424,
   2428436474, 2756734187, 3204031479, 3329325298]

/-- The SHA-256 initial hash value. -/
def shaH0 : List Nat :=
  [1779033703, 3144134277, 1013904242, 2773480762,
   1359893119, 2600822924, 528734635, 1541459225]

/-- Big-endian 64-bit length encoding. -/
def be64 (n : Nat) : List Nat :=
  (List.range 8).map fun i => (n >>> (8 * (7 - i))) % 256

/-- SHA-256 message padding. -/
def shaPad (msg : List Nat) : List Nat :=
  let len := msg.length
  let k := (120 - ((len + 1) % 64)) % 64
  msg ++ [128] ++ List.replicate k 0 ++ be64 (8 * len)

/-- Combine four bytes into one big-endian 32-bit word. -/
def word4 (b0 b1 b2 b3 : Nat) : Nat :=
  b0 * 16777216 + b1 * 65536 + b2 * 256 + b3

/-- The 32-bit words of a byte list, four bytes per word, big-endian. -/
def words16 : List Nat → List Nat
  | b0 :: b1 :: b2 :: b3 :: rest => word4 b0 b1 b2 b3 :: words16 rest
  | _ => []

/-- Group a word list into 16-word chunks (one per 64-byte block). -/
def chunks16 : List Nat → List (List Nat)
  | w0 :: w1 :: w2 :: w3 :: w4 :: w5 :: w6 :: w7 ::
    w8 :: w9 :: w10 :: w11 :: w12 :: w13 :: w14 :: w15 :: rest =>
    [w0, w1, w2, w3, w4, w5, w6, w7, w8, w9, w10, w11, w12, w13, w14, w15] :: chunks16 rest
  | _ => []

/-- Extend the message schedule by `k` further words. -/
def extendSchedule (w : List Nat) : Nat → List Nat
  | 0 => w
  | k + 1 =>
    let i := w.length
    let nw := w32 (smallSigma1 (w.getD (i - 2) 0) + w.getD (i - 7) 0 +
      smallSigma0 (w.getD (i - 15) 0) + w.getD (i - 16) 0)
    extendSchedule (w ++ [nw]) k

/-- SHA-256 working state. -/
structure Hash8 where
  a : Nat
  b : Nat
  c : Nat
  d : Nat
  e : Nat
  f : Nat
  g : Nat
  h : Nat
deriving DecidableEq

/-- One SHA-256 compression round. -/
def shaRound (st : Hash8) (kw : Nat × Nat) : Hash8 :=
  let t1 := w32 (st.h + bigSigma1 st.e + shaCh st.e st.f st.g + kw.1 + kw.2)
  let t2 := w32 (bigSigma0 st.a + shaMaj st.a st.b st.c)
  ⟨w32 (t1 + t2), st.a, st.b, st.c, w32 (st.d + t1), st.e, st.f, st.g⟩

/-- Process one 64-byte chunk, given as its sixteen 32-bit words. -/
def processChunk (h : Hash8) (chunk : List Nat) : Hash8 :=
  let ws := extendSchedule chunk 48
  let st := (shaK.zip ws).foldl shaRound h
  ⟨w32 (h.a + st.a), w32 (h.b + st.b), w32 (h.c + st.c), w32 (h.d + st.d),
   w32 (h.e + st.e), w32 (h.f + st.f), w32 (h.g + st.g), w32 (h.h + st.h)⟩

/-- SHA-256 digest of a byte list, as eight 32-bit words. -/
def sha256 (msg : List Nat) : Hash8 :=
  match shaH0 with
  | [a, b, c, d, e, f, g, h] =>
    (chunks16 (words16 (shaPad msg))).foldl processChunk ⟨a, b, c, d, e, f, g, h⟩
  | _ => ⟨0, 0, 0, 0, 0, 0, 0, 0⟩

/-- One hexadecimal digit character, lowercase. -/
def hexDigit (n : Nat) : Char :=
  if n < 10 then Char.ofNat (48 + n) else Char.ofNat (87 + n)

/-- Lowercase hex rendering of a 32-bit word (eight digits). -/
def hex32 (n : Nat) : List Char :=
  (List.range 8).map fun i => hexDigit ((n >>> (4 * (7 - i))) % 16)

/-- The `fmt.Sprintf("%x", sha256.Sum256(b))` digest string. -/
def sha256hex (msg : List Nat) : String :=
  let d := sha256 msg
  ⟨hex32 d.a ++ hex32 d.b ++ hex32 d.c ++ hex32 d.d ++
   hex32 d.e ++ hex32 d.f ++ hex32 d.g ++ hex32 d.h⟩

/-- Bytes of a string (all strings in this development are ASCII, so code
points and UTF-8 bytes agree). -/
def strBytes (s : String) : List Nat := s.data.map Char.toNat

/-- Association-list lookup, embedding reads from a Go `map[string]string`. -/
def lookupStr (l : List (String × String)) (k : String) : Option String :=
  (l.find? (fun p => p.1 == k)).map (·.2)

/-! ## api/v1 constants (src/api/v1/constants.go) -/

def DefaultRaftPort : Nat := 9443
def DefaultGRPCPort : Nat := 8443
def DefaultWireGuardPort : Nat := 51820
def DefaultDataDirectory : String := "/data"
def DefaultTLSDirectory : String := "/etc/webmesh/tls"

/-- Modelled from the spec: the dedicated zone-awareness label key
(`meshv1.ZoneAwarenessLabel`); its defining revision of constants.go is not
under src/. Only its role as a lookup key matters here. -/
def ZoneAwarenessLabel : String := "webmesh.io/zone-awareness"

/-! ## api/v1 node-group configuration (src/api/v1/nodegroup_config_types.go)

Go pointers become `Option`; each Go `Merge` method (receiver and argument
both possibly nil) becomes a total function on two `Option`s, mirroring the
four nil cases of the source. -/

structure NodeMetricsConfig where
  listenAddress : String := ""
  path : String := ""
deriving DecidableEq

def NodeMetricsConfig.applyDefault (c : NodeMetricsConfig) : NodeMetricsConfig :=
  { listenAddress := if c.listenAddress = "" then ":8080" else c.listenAddress,
    path := if c.path = "" then "/metrics" else c.path }

def NodeMetricsConfig.mergeSome (c i : NodeMetricsConfig) : NodeMetricsConfig :=
  { listenAddress := if i.listenAddress ≠ "" then i.listenAddress else c.listenAddress,
    path := if i.path ≠ "" then i.path else c.path }

def NodeMetricsConfig.merge : Option NodeMetricsConfig → Option NodeMetricsConfig → NodeMetricsConfig
  | none, none => NodeMetricsConfig.applyDefault {}
  | some c, none => c
  | none, some i => i
  | some c, some i => c.mergeSome i

structure NodeWebRTCConfig where
  stunServers : List String := []
deriving DecidableEq

def NodeWebRTCConfig.applyDefault (c : NodeWebRTCConfig) : NodeWebRTCConfig :=
  { stunServers := if c.stunServers.length = 0 then ["stun:stun.l.google.com:19302"] else c.stunServers }

def NodeWebRTCConfig.mergeSome (c i : NodeWebRTCConfig) : NodeWebRTCConfig :=
  { stunServers := if i.stunServers.length > 0 then i.stunServers else c.stunServers }

def NodeWebRTCConfig.merge : Option NodeWebRTCConfig → Option NodeWebRTCConfig → NodeWebRTCConfig
  | none, none => NodeWebRTCConfig.applyDefault {}
  | some c, none => c
  | none, some i => i
  | some c, some i => c.mergeSome i

structure NodeMeshDNSConfig where
  listenUDP : String := ""
  listenTCP : String := ""
deriving DecidableEq

def NodeMeshDNSConfig.applyDefault (c : NodeMeshDNSConfig) : NodeMeshDNSConfig :=
  { listenUDP := if c.listenUDP = "" then ":5353" else c.listenUDP,
    listenTCP := if c.listenTCP = "" then ":5353" else c.listenTCP }

def NodeMeshDNSConfig.mergeSome (c i : NodeMeshDNSConfig) : NodeMeshDNSConfig :=
  { listenUDP := if i.listenUDP ≠ "" then i.listenUDP else c.listenUDP,
    listenTCP := if i.listenTCP ≠ "" then i.listenTCP else c.listenTCP }

def NodeMeshDNSConfig.merge : Option NodeMeshDNSConfig → Option NodeMeshDNSConfig → NodeMeshDNSConfig
  | none, none => NodeMeshDNSConfig.applyDefault {}
  | some c, none => c
  | none, some i => i
  | some c, some i => c.mergeSome i

/-- Services enabled on a group of nodes. The `enableAdminAPI` field is
modelled from the spec: it is read by `nodeconfig.New` and set by
`Mesh.BootstrapGroups`, but the revision of nodegroup_config_types.go
declaring it is not under src/. -/
structure NodeServicesConfig where
  metrics : Option NodeMetricsConfig := none
  webRTC : Option NodeWebRTCConfig := none
  meshDNS : Option NodeMeshDNSConfig := none
  enableLeaderProxy : Bool := false
  enableMeshAPI : Bool := false
  enablePeerDiscoveryAPI : Bool := false
  enableAdminAPI : Bool := false
deriving DecidableEq

def NodeServicesConfig.applyDefault (c : NodeServicesConfig) : NodeServicesConfig :=
  { c with
    metrics := c.metrics.map NodeMetricsConfig.applyDefault,
    webRTC := c.webRTC.map NodeWebRTCConfig.applyDefault,
    meshDNS := c.meshDNS.map NodeMeshDNSConfig.applyDefault }

/-- Field-by-field merge when both receiver and argument are non-nil. The
`enableAdminAPI` clause is modelled from the spec ("any true boolean in
override stays true"), its defining revision being absent from src/. -/
def NodeServicesConfig.mergeSome (c i : NodeServicesConfig) : NodeServicesConfig :=
  { metrics := if i.metrics.isSome then some (NodeMetricsConfig.merge c.metrics i.metrics) else c.metrics,
    webRTC := if i.webRTC.isSome then some (NodeWebRTCConfig.merge c.webRTC i.webRTC) else c.webRTC,
    meshDNS := if i.meshDNS.isSome then some (NodeMeshDNSConfig.merge c.meshDNS i.meshDNS) else c.meshDNS,
    enableLeaderProxy := if i.enableLeaderProxy then true else c.enableLeaderProxy,
    enableMeshAPI := if i.enableMeshAPI then true else c.enableMeshAPI,
    enablePeerDiscoveryAPI := if i.enablePeerDiscoveryAPI then true else c.enablePeerDiscoveryAPI,
    enableAdminAPI := if i.enableAdminAPI then true else c.enableAdminAPI }

def NodeServicesConfig.merge : Option NodeServicesConfig → Option NodeServicesConfig → NodeServicesConfig
  | none, none => NodeServicesConfig.applyDefault {}
  | some c, none => c
  | none, some i => i
  | some c, some i => c.mergeSome i

/-- Desired Webmesh configuration for a group of nodes. The `voter` field is
modelled from the spec (the group's "voter" eligibility flag): it is read by
`nodeconfig.New` and set by `Mesh.BootstrapGroups`, but the revision of
nodegroup_config_types.go declaring it is not under src/. -/
structure NodeGroupConfig where
  logLevel : String := ""
  noIPv6 : Bool := false
  voter : Bool := false
  services : Option NodeServicesConfig := none
deriving DecidableEq

def NodeGroupConfig.applyDefault (c : NodeGroupConfig) : NodeGroupConfig :=
  { c with
    logLevel := if c.logLevel = "" then "info" else c.logLevel,
    services := c.services.map NodeServicesConfig.applyDefault }

/-- Field-by-field merge when both receiver and argument are non-nil. The
`voter` clause is modelled from the spec ("boolean fields OR together"), its
defining revision being absent from src/. -/
def NodeGroupConfig.mergeSome (c i : NodeGroupConfig) : NodeGroupConfig :=
  { logLevel := if i.logLevel ≠ "" then i.logLevel else c.logLevel,
    noIPv6 := if i.noIPv6 then true else c.noIPv6,
    voter := if i.voter then true else c.voter,
    services := if i.services.isSome then
        some (NodeServicesConfig.merge (some (c.services.getD {})) i.services)
      else c.services }

def NodeGroupConfig.merge : Option NodeGroupConfig → Option NodeGroupConfig → NodeGroupConfig
  | none, none => NodeGroupConfig.applyDefault {}
  | some c, none => c
  | none, some i => i
  | some c, some i => c.mergeSome i

/-! ## api/v1 Mesh and NodeGroup (src/api/v1/mesh_types.go, nodegroup_types.go)

Only the fields read by the embedded operations are carried. Go maps become
association lists; `GetNamespace()` becomes the `nspace` field. -/

structure IssuerConfig where
  create : Bool := false
  kind : String := ""
deriving DecidableEq

/-- External-exposure parameters of a node group (`NodeGroupLBConfig` /
`NodeGroupServiceConfig`). Only the ports are read by the embedded code. -/
structure NodeGroupLBConfig where
  grpcPort : Nat := 8443
  wireGuardPort : Nat := 51820
deriving DecidableEq

structure Capabilities where
  add : List String := []
  drop : List String := []
deriving DecidableEq

/-- corev1.SecurityContext (container level); only the fields the factory
sets or the claims inspect. -/
structure SecurityContext where
  capabilities : Option Capabilities := none
  runAsUser : Option Nat := none
  runAsGroup : Option Nat := none
  privileged : Option Bool := none
  runAsNonRoot : Option Bool := none
  readOnlyRootFilesystem : Option Bool := none
  seccompProfile : Option String := none
deriving DecidableEq

/-- corev1.Container, reduced to the fields the claims inspect. -/
structure Container where
  name : String := ""
  image : String := ""
  securityContext : Option SecurityContext := none
deriving DecidableEq

/-- corev1.PodSecurityContext. Faithful to the Kubernetes schema: the
pod-level context has NO capabilities field and NO readOnlyRootFilesystem
field; those exist only per container. -/
structure PodSecurityContext where
  runAsUser : Option Nat := none
  runAsGroup : Option Nat := none
  runAsNonRoot : Option Bool := none
  fsGroup : Option Nat := none
  seccompProfile : Option String := none
deriving DecidableEq

/-- In-cluster deployment parameters of a node group (`Spec.Cluster`).
Modelled from the spec for the fields whose declaring revision is not under
src/; the PVC spec is an opaque payload of which only nil-ness is read. -/
structure NodeGroupClusterSpec where
  service : Option NodeGroupLBConfig := none
  imagePullPolicy : String := ""
  pvcSpec : Option String := none
  initContainers : List Container := []
  additionalContainers : List Container := []
  podAnnotations : List (String × String) := []
  hostNetwork : Bool := false
deriving DecidableEq

/-- NodeGroupSpec. The direct workload fields correspond to the revision in
src/api/v1/nodegroup_types.go (used by src/controllers/resources/statefulsets.go);
the `cluster` union member corresponds to the revision used by pods.go and
the controllers. -/
structure NodeGroupSpec where
  image : String := ""
  imagePullPolicy : String := ""
  replicas : Nat := 1
  configGroup : String := ""
  config : Option NodeGroupConfig := none
  cluster : Option NodeGroupClusterSpec := none
  pvcSpec : Option String := none
  initContainers : List Container := []
  additionalContainers : List Container := []
  podAnnotations : List (String × String) := []
  hostNetwork : Bool := false
deriving DecidableEq

structure NodeGroup where
  name : String := ""
  nspace : String := ""
  labels : List (String × String) := []
  annotations : List (String × String) := []
  spec : NodeGroupSpec := {}
deriving DecidableEq

/-- MeshSpec. `defaultNetworkPolicy` is modelled from the spec (read by
`nodeconfig.New`; its declaring revision of mesh_types.go is not under src/). -/
structure MeshSpec where
  image : String := ""
  configGroups : List (String × NodeGroupConfig) := []
  bootstrap : NodeGroupSpec := {}
  ipv4 : String := ""
  defaultNetworkPolicy : String := ""
  issuer : IssuerConfig := {}
deriving DecidableEq

structure Mesh where
  name : String := ""
  nspace : String := ""
  labels : List (String × String) := []
  annotations : List (String × String) := []
  spec : MeshSpec := {}
deriving DecidableEq

/-! ## api/v1 naming functions (src/api/v1/mesh_types.go) -/

def MeshAdminCertName (mesh : Mesh) : String := mesh.name ++ "-admin"

def MeshAdminConfigName (mesh : Mesh) : String := mesh.name ++ "-admin-config"

def MeshAdminHostname (mesh : Mesh) : String := mesh.name ++ "-admin"

/-- `strings.HasPrefix(s, p)` (character-list prefix test; identical to the
Go byte-level test on the ASCII names used here). -/
def strHasPrefixOf (s p : String) : Bool := p.data.isPrefixOf s.data

def MeshNodeGroupStatefulSetName (mesh : Mesh) (group : NodeGroup) : String :=
  if strHasPrefixOf group.name mesh.name then group.name
  else mesh.name ++ "-" ++ group.name

def MeshNodeGroupPodName (mesh : Mesh) (group : NodeGroup) (index : Nat) : String :=
  MeshNodeGroupStatefulSetName mesh group ++ "-" ++ natDec index

def MeshNodeCertName (mesh : Mesh) (group : NodeGroup) (index : Nat) : String :=
  MeshNodeGroupPodName mesh group index

def MeshNodeGroupLBName (mesh : Mesh) (group : NodeGroup) : String :=
  MeshNodeGroupStatefulSetName mesh group ++ "-public"

def MeshNodeGroupConfigMapName (mesh : Mesh) (group : NodeGroup) : String :=
  MeshNodeGroupStatefulSetName mesh group

def MeshNodeGroupHeadlessServiceName (mesh : Mesh) (group : NodeGroup) : String :=
  MeshNodeGroupStatefulSetName mesh group

def MeshNodeGroupHeadlessServiceFQDN (mesh : Mesh) (group : NodeGroup) : String :=
  MeshNodeGroupHeadlessServiceName mesh group ++ "." ++ group.nspace ++ ".svc.cluster.local"

def MeshNodeClusterFQDN (mesh : Mesh) (group : NodeGroup) (index : Nat) : String :=
  MeshNodeGroupPodName mesh group index ++ "." ++ MeshNodeGroupHeadlessServiceFQDN mesh group

/-! ## nodecmd options (external webmeshproj/node package)

Modelled from the spec: the `nodecmd.Options` tree carries exactly the fields
assigned by `nodeconfig.New`; `nodecmd.NewOptions()` returns the tree with
every toggle disabled and every scalar empty/zero. -/

structure GlobalOptions where
  logLevel : String := ""
  tlsCertFile : String := ""
  tlsKeyFile : String := ""
  tlsCAFile : String := ""
  mtls : Bool := false
  verifyChainOnly : Bool := false
  noIPv6 : Bool := false
  detectEndpoints : Bool := false
  allowRemoteDetection : Bool := false
  detectIPv6 : Bool := false
deriving DecidableEq

structure MeshMeshOptions where
  zoneAwarenessID : String := ""
  primaryEndpoint : String := ""
  wireGuardEndpoints : String := ""
  joinAddress : String := ""
  joinAsVoter : Bool := false
deriving DecidableEq

structure BootstrapOptions where
  enabled : Bool := false
  admin : String := ""
  ipv4Network : String := ""
  defaultNetworkPolicy : String := ""
  advertiseAddress : String := ""
  voters : String := ""
  servers : String := ""
deriving DecidableEq

structure RaftOptions where
  dataDir : String := ""
  inMemory : Bool := false
  leaveOnShutdown : Bool := false
deriving DecidableEq

structure WireGuardOptions where
  persistentKeepAlive : Nat := 0
  forceInterfaceName : Bool := false
  listenPort : Nat := 0
deriving DecidableEq

structure APIOptions where
  leaderProxy : Bool := false
  webRTC : Bool := false
  mesh : Bool := false
  peerDiscovery : Bool := false
  admin : Bool := false
  stunServers : String := ""
deriving DecidableEq

structure MeshDNSOptions where
  enabled : Bool := false
  listenUDP : String := ""
  listenTCP : String := ""
deriving DecidableEq

structure MetricsOptions where
  enabled : Bool := false
  listenAddress : String := ""
  path : String := ""
deriving DecidableEq

structure ServiceOptions where
  api : APIOptions := {}
  meshDNS : MeshDNSOptions := {}
  metrics : MetricsOptions := {}
deriving DecidableEq

structure NodeCmdOptions where
  global : GlobalOptions := {}
  meshMesh : MeshMeshOptions := {}
  bootstrap : BootstrapOptions := {}
  raft : RaftOptions := {}
  wireGuard : WireGuardOptions := {}
  services : ServiceOptions := {}
deriving DecidableEq

/-- Modelled from the spec: `nodecmd.NewOptions()` with every service toggle
defaulting to disabled. -/
def newNodeCmdOptions : NodeCmdOptions := {}

/-! ## nodeconfig renderer (src/controllers/nodeconfig/nodeconfig.go) -/

/-- Errors of `nodeconfig.New`. The marshal-error path of the source cannot
occur here because the modelled serializers are total. -/
inductive ConfigError where
  | configGroupNotFound (g : String)
  | joinServerRequired
deriving DecidableEq

def lookupConfigGroup (m : List (String × NodeGroupConfig)) (k : String) :
    Option NodeGroupConfig :=
  (m.find? (fun p => p.1 == k)).map (·.2)

/-- The config-group resolution prologue of `New`: merge the named preset
with the inline overrides (inline wins). A nil `ConfigGroups` map and a
missing key both yield the not-found error, as in the source. -/
def resolveGroupConfig (mesh : Mesh) (group : NodeGroup) :
    Except ConfigError (Option NodeGroupConfig) :=
  if group.spec.configGroup ≠ "" then
    match lookupConfigGroup mesh.spec.configGroups group.spec.configGroup with
    | none => .error (.configGroupNotFound group.spec.configGroup)
    | some cg => .ok (some (NodeGroupConfig.merge (some cg) group.spec.config))
  else .ok group.spec.config

/-- nodeconfig.Options. -/
structure Options where
  mesh : Mesh := {}
  group : NodeGroup := {}
  advertiseAddress : String := ""
  primaryEndpoint : String := ""
  wireGuardEndpoints : List String := []
  wireGuardListenPort : Nat := 0
  isBootstrap : Bool := false
  bootstrapServers : List (String × String) := []
  bootstrapVoters : List String := []
  joinServer : String := ""
  isPersistent : Bool := false
  certDir : String := ""
  detectEndpoints : Bool := false
  allowRemoteDetection : Bool := false
  persistentKeepalive : Nat := 0
deriving DecidableEq

/-- The storage and per-service sections of `New` (the part after the
bootstrap/join branch). The source's sequence of field assignments is
rendered as one field-wise record update with the same net effect: each
field receives the last value the source assigns to it, untouched fields
keep their value from `o`. -/
def finishOptions (opts : Options) (groupcfg : NodeGroupConfig) (o : NodeCmdOptions) :
    NodeCmdOptions :=
  let o := { o with raft := { o.raft with
      dataDir := if opts.isPersistent then DefaultDataDirectory else "",
      inMemory := if opts.isPersistent then o.raft.inMemory else true } }
  match groupcfg.services with
  | none => o
  | some svc =>
    { o with services := {
        api := { o.services.api with
          leaderProxy := opts.isBootstrap || svc.enableLeaderProxy,
          webRTC := svc.webRTC.isSome,
          mesh := svc.enableMeshAPI,
          peerDiscovery := svc.enablePeerDiscoveryAPI,
          admin := svc.enableAdminAPI,
          stunServers := match svc.webRTC with
            | some w => joinComma w.stunServers
            | none => o.services.api.stunServers },
        meshDNS := {
          enabled := svc.meshDNS.isSome,
          listenUDP := match svc.meshDNS with
            | some d => d.listenUDP
            | none => o.services.meshDNS.listenUDP,
          listenTCP := match svc.meshDNS with
            | some d => d.listenTCP
            | none => o.services.meshDNS.listenTCP },
        metrics := {
          enabled := svc.metrics.isSome,
          listenAddress := match svc.metrics with
            | some m => m.listenAddress
            | none => o.services.metrics.listenAddress,
          path := match svc.metrics with
            | some m => m.path
            | none => o.services.metrics.path } } }

/-- The options-construction part of `nodeconfig.New`, before serialization.
When both `Config` and `ConfigGroup` are absent the Go source dereferences a
nil `*NodeGroupConfig`; callers always supply one, and the zero value is read
in that case here. -/
def buildOptions (opts : Options) : Except ConfigError NodeCmdOptions :=
  match resolveGroupConfig opts.mesh opts.group with
  | .error e => .error e
  | .ok groupcfgOpt =>
    let groupcfg := groupcfgOpt.getD {}
    let o := newNodeCmdOptions
    let o := { o with global := {
      logLevel := groupcfg.logLevel,
      tlsCertFile := opts.certDir ++ "/tls.crt",
      tlsKeyFile := opts.certDir ++ "/tls.key",
      tlsCAFile := opts.certDir ++ "/ca.crt",
      mtls := true,
      verifyChainOnly := opts.mesh.spec.issuer.create,
      noIPv6 := groupcfg.noIPv6,
      detectEndpoints := opts.detectEndpoints,
      allowRemoteDetection := opts.allowRemoteDetection,
      detectIPv6 := opts.detectEndpoints } }
    let o := { o with meshMesh := { o.meshMesh with
      zoneAwarenessID := (lookupStr opts.group.labels ZoneAwarenessLabel).getD opts.group.name,
      primaryEndpoint := opts.primaryEndpoint,
      wireGuardEndpoints := if opts.wireGuardEndpoints.length > 0 then
          joinComma (sortStrings opts.wireGuardEndpoints)
        else o.meshMesh.wireGuardEndpoints } }
    let o := { o with wireGuard := { o.wireGuard with
      persistentKeepAlive := opts.persistentKeepalive,
      forceInterfaceName := true,
      listenPort := if opts.wireGuardListenPort > 0 then opts.wireGuardListenPort
        else o.wireGuard.listenPort } }
    if opts.isBootstrap then
      let o := { o with
        bootstrap := { o.bootstrap with
          enabled := true,
          admin := MeshAdminHostname opts.mesh,
          ipv4Network := opts.mesh.spec.ipv4,
          defaultNetworkPolicy := opts.mesh.spec.defaultNetworkPolicy,
          advertiseAddress := opts.advertiseAddress,
          voters := if opts.bootstrapVoters.length > 0 then
              joinComma (sortStrings opts.bootstrapVoters)
            else o.bootstrap.voters,
          servers := if opts.bootstrapServers.length > 0 then
              joinComma (sortStrings (opts.bootstrapServers.map (fun p => p.1 ++ "=" ++ p.2)))
            else o.bootstrap.servers },
        services := { o.services with api := { o.services.api with leaderProxy := true } } }
      .ok (finishOptions opts groupcfg o)
    else
      if opts.joinServer = "" then .error .joinServerRequired
      else
        let o := { o with
          meshMesh := { o.meshMesh with
            joinAddress := opts.joinServer,
            joinAsVoter := groupcfg.voter },
          raft := { o.raft with leaveOnShutdown := true } }
        .ok (finishOptions opts groupcfg o)

/-! ## Serialization (external `json.Marshal` / `nodecmd.Options.MarshalTo`) -/

def jstr (s : String) : String := "\"" ++ s ++ "\""

def jbool (b : Bool) : String := if b then "true" else "false"

def jobj (fields : List (String × String)) : String :=
  "\x7b" ++ joinComma (fields.map (fun p => jstr p.1 ++ ":" ++ p.2)) ++ "\x7d"

/-- Modelled from the spec: `json.Marshal` of the options tree — the
canonical-key-ordered JSON form, rendering every field deterministically. -/
def jsonMarshal (o : NodeCmdOptions) : String :=
  jobj [
    ("global", jobj [
      ("log-level", jstr o.global.logLevel),
      ("tls-cert-file", jstr o.global.tlsCertFile),
      ("tls-key-file", jstr o.global.tlsKeyFile),
      ("tls-ca-file", jstr o.global.tlsCAFile),
      ("mtls", jbool o.global.mtls),
      ("verify-chain-only", jbool o.global.verifyChainOnly),
      ("no-ipv6", jbool o.global.noIPv6),
      ("detect-endpoints", jbool o.global.detectEndpoints),
      ("allow-remote-detection", jbool o.global.allowRemoteDetection),
      ("detect-ipv6", jbool o.global.detectIPv6)]),
    ("mesh", jobj [
      ("mesh", jobj [
        ("zone-awareness-id", jstr o.meshMesh.zoneAwarenessID),
        ("primary-endpoint", jstr o.meshMesh.primaryEndpoint),
        ("wireguard-endpoints", jstr o.meshMesh.wireGuardEndpoints),
        ("join-address", jstr o.meshMesh.joinAddress),
        ("join-as-voter", jbool o.meshMesh.joinAsVoter)]),
      ("bootstrap", jobj [
        ("enabled", jbool o.bootstrap.enabled),
        ("admin", jstr o.bootstrap.admin),
        ("ipv4-network", jstr o.bootstrap.ipv4Network),
        ("default-network-policy", jstr o.bootstrap.defaultNetworkPolicy),
        ("advertise-address", jstr o.bootstrap.advertiseAddress),
        ("voters", jstr o.bootstrap.voters),
        ("servers", jstr o.bootstrap.servers)]),
      ("raft", jobj [
        ("data-dir", jstr o.raft.dataDir),
        ("in-memory", jbool o.raft.inMemory),
        ("leave-on-shutdown", jbool o.raft.leaveOnShutdown)]),
      ("wireguard", jobj [
        ("persistent-keepalive", natDec o.wireGuard.persistentKeepAlive),
        ("force-interface-name", jbool o.wireGuard.forceInterfaceName),
        ("listen-port", natDec o.wireGuard.listenPort)])]),
    ("services", jobj [
      ("api", jobj [
        ("leader-proxy", jbool o.services.api.leaderProxy),
        ("webrtc", jbool o.services.api.webRTC),
        ("mesh", jbool o.services.api.mesh),
        ("peer-discovery", jbool o.services.api.peerDiscovery),
        ("admin", jbool o.services.api.admin),
        ("stun-servers", jstr o.services.api.stunServers)]),
      ("mesh-dns", jobj [
        ("enabled", jbool o.services.meshDNS.enabled),
        ("listen-udp", jstr o.services.meshDNS.listenUDP),
        ("listen-tcp", jstr o.services.meshDNS.listenTCP)]),
      ("metrics", jobj [
        ("enabled", jbool o.services.metrics.enabled),
        ("listen-address", jstr o.services.metrics.listenAddress),
        ("path", jstr o.services.metrics.path)])])]

def yline (k v : String) : String := k ++ ": " ++ v ++ "\n"

/-- Modelled from the spec: `nodecmd.Options.MarshalTo` — the canonical wire
form stored in the config map (a YAML-style rendering, distinct from the JSON
form), rendering every field deterministically. -/
def marshalTo (o : NodeCmdOptions) : String :=
  yline "global.log-level" o.global.logLevel ++
  yline "global.tls-cert-file" o.global.tlsCertFile ++
  yline "global.tls-key-file" o.global.tlsKeyFile ++
  yline "global.tls-ca-file" o.global.tlsCAFile ++
  yline "global.mtls" (jbool o.global.mtls) ++
  yline "global.verify-chain-only" (jbool o.global.verifyChainOnly) ++
  yline "global.no-ipv6" (jbool o.global.noIPv6) ++
  yline "global.detect-endpoints" (jbool o.global.detectEndpoints) ++
  yline "global.allow-remote-detection" (jbool o.global.allowRemoteDetection) ++
  yline "global.detect-ipv6" (jbool o.global.detectIPv6) ++
  yline "mesh.mesh.zone-awareness-id" o.meshMesh.zoneAwarenessID ++
  yline "mesh.mesh.primary-endpoint" o.meshMesh.primaryEndpoint ++
  yline "mesh.mesh.wireguard-endpoints" o.meshMesh.wireGuardEndpoints ++
  yline "mesh.mesh.join-address" o.meshMesh.joinAddress ++
  yline "mesh.mesh.join-as-voter" (jbool o.meshMesh.joinAsVoter) ++
  yline "mesh.bootstrap.enabled" (jbool o.bootstrap.enabled) ++
  yline "mesh.bootstrap.admin" o.bootstrap.admin ++
  yline "mesh.bootstrap.ipv4-network" o.bootstrap.ipv4Network ++
  yline "mesh.bootstrap.default-network-policy" o.bootstrap.defaultNetworkPolicy ++
  yline "mesh.bootstrap.advertise-address" o.bootstrap.advertiseAddress ++
  yline "mesh.bootstrap.voters" o.bootstrap.voters ++
  yline "mesh.bootstrap.servers" o.bootstrap.servers ++
  yline "mesh.raft.data-dir" o.raft.dataDir ++
  yline "mesh.raft.in-memory" (jbool o.raft.inMemory) ++
  yline "mesh.raft.leave-on-shutdown" (jbool o.raft.leaveOnShutdown) ++
  yline "mesh.wireguard.persistent-keepalive" (natDec o.wireGuard.persistentKeepAlive) ++
  yline "mesh.wireguard.force-interface-name" (jbool o.wireGuard.forceInterfaceName) ++
  yline "mesh.wireguard.listen-port" (natDec o.wireGuard.listenPort) ++
  yline "services.api.leader-proxy" (jbool o.services.api.leaderProxy) ++
  yline "services.api.webrtc" (jbool o.services.api.webRTC) ++
  yline "services.api.mesh" (jbool o.services.api.mesh) ++
  yline "services.api.peer-discovery" (jbool o.services.api.peerDiscovery) ++
  yline "services.api.admin" (jbool o.services.api.admin) ++
  yline "services.api.stun-servers" o.services.api.stunServers ++
  yline "services.mesh-dns.enabled" (jbool o.services.meshDNS.enabled) ++
  yline "services.mesh-dns.listen-udp" o.services.meshDNS.listenUDP ++
  yline "services.mesh-dns.listen-tcp" o.services.meshDNS.listenTCP ++
  yline "services.metrics.enabled" (jbool o.services.metrics.enabled) ++
  yline "services.metrics.listen-address" o.services.metrics.listenAddress ++
  yline "services.metrics.path" o.services.metrics.path

/-- A rendered node group config: the options, the JSON serialization
(`rawjson`) and the wire-form serialization (`raw`). -/
structure Config where
  options : NodeCmdOptions
  rawjson : String
  raw : String
deriving DecidableEq

/-- `Config.Checksum`: hex SHA-256 of the `rawjson` field. -/
def Config.Checksum (c : Config) : String := sha256hex (strBytes c.rawjson)

/-- `Config.Raw`: the wire-form bytes. -/
def Config.Raw (c : Config) : String := c.raw

/-- `nodeconfig.New`. -/
def New (opts : Options) : Except ConfigError Config :=
  (buildOptions opts).map fun o =>
    { options := o, rawjson := jsonMarshal o, raw := marshalTo o }

/-! ## Edge-proxy configuration renderer
(src/controllers/resources/configmaps.go, `NewNodeGroupLBConfigMap`)

Go maps of routers/services become association lists in replica-index order.
The YAML encoding and its checksum are not inspected by any claim and are
omitted; only the `traefikConfig` literal is embedded. -/

structure TraefikRouter where
  entryPoints : List String := []
  service : String := ""
  rule : String := ""
  tlsPassthrough : Bool := false
deriving DecidableEq

structure TraefikServer where
  address : String := ""
deriving DecidableEq

structure TraefikLoadBalancer where
  servers : List TraefikServer := []
deriving DecidableEq

structure TraefikService where
  loadBalancer : TraefikLoadBalancer := {}
deriving DecidableEq

/-- Routers and services of one protocol section (`tcpConfig` / `udpConfig`). -/
structure TraefikProtoConfig where
  routers : List (String × TraefikRouter) := []
  services : List (String × TraefikService) := []
deriving DecidableEq

structure TraefikConfig where
  tcp : TraefikProtoConfig := {}
  udp : TraefikProtoConfig := {}
deriving DecidableEq

/-- The `traefikConfig` literal built by `NewNodeGroupLBConfigMap`. -/
def NewNodeGroupLBConfig (mesh : Mesh) (group : NodeGroup) : TraefikConfig :=
  let n := group.spec.replicas
  { tcp := {
      routers := [("grpc", {
        entryPoints := ["grpc"],
        service := "grpc",
        rule := "HostSNI(`*`)",
        tlsPassthrough := true })],
      services := [("grpc", {
        loadBalancer := { servers := (List.range n).map fun i =>
          { address := MeshNodeClusterFQDN mesh group i ++ ":" ++ natDec DefaultGRPCPort } } })] },
    udp := {
      routers := (List.range n).map fun i =>
        ("wireguard-" ++ natDec i, {
          entryPoints := ["wireguard-" ++ natDec i],
          service := "wireguard-" ++ natDec i }),
      services := (List.range n).map fun i =>
        ("wireguard-" ++ natDec i, {
          loadBalancer := { servers :=
            [{ address := MeshNodeClusterFQDN mesh group i ++ ":" ++ natDec (DefaultWireGuardPort + i) }] } }) } }

/-! ## Child-object factory: StatefulSets and Pods
(src/controllers/resources/statefulsets.go, src/unnamed/part_008,
src/controllers/resources/pods.go) -/

inductive PVCRetentionPolicyType where
  | retain
  | delete
deriving DecidableEq

structure PVCRetentionPolicy where
  whenDeleted : PVCRetentionPolicyType
  whenScaled : PVCRetentionPolicyType
deriving DecidableEq

/-- The escalated security context of the mesh "node" container
(identical in statefulsets.go, part_008 and pods.go). -/
def nodeSecurityContext : SecurityContext :=
  { capabilities := some { add := ["NET_ADMIN", "NET_RAW", "SYS_MODULE"] },
    runAsUser := some 0,
    runAsGroup := some 0,
    privileged := some true,
    runAsNonRoot := some false,
    seccompProfile := some "RuntimeDefault" }

/-- The pod-level security context applied by all three renderers. -/
def podSecurityContextValue : PodSecurityContext :=
  { runAsUser := some 65534,
    runAsGroup := some 65534,
    runAsNonRoot := some true,
    fsGroup := some 65534,
    seccompProfile := some "RuntimeDefault" }

/-- The `write-ordinal` busybox init container of statefulsets.go
(no security context of its own). -/
def writeOrdinalContainer : Container :=
  { name := "write-ordinal", image := "busybox" }

structure PodSpecRender where
  initContainers : List Container := []
  containers : List Container := []
  securityContext : Option PodSecurityContext := none
deriving DecidableEq

structure StatefulSetRender where
  name : String
  replicas : Nat
  pvcRetention : PVCRetentionPolicy
  templateAnnotations : List (String × String)
  template : PodSpecRender
deriving DecidableEq

def ConfigChecksumKey : String := "webmesh.io/config-checksum"

/-- `NewNodeGroupStatefulSet` (src/controllers/resources/statefulsets.go).
Ports, volumes, probes and scheduling knobs are not inspected by any claim
and are omitted. -/
def NewNodeGroupStatefulSet (mesh : Mesh) (group : NodeGroup) (configChecksum : String) :
    StatefulSetRender :=
  { name := MeshNodeGroupStatefulSetName mesh group,
    replicas := group.spec.replicas,
    pvcRetention := { whenDeleted := .delete, whenScaled := .retain },
    templateAnnotations := group.spec.podAnnotations ++ [(ConfigChecksumKey, configChecksum)],
    template := {
      initContainers := writeOrdinalContainer :: group.spec.initContainers,
      containers :=
        { name := "node", image := group.spec.image,
          securityContext := some nodeSecurityContext } :: group.spec.additionalContainers,
      securityContext := some podSecurityContextValue } }

/-- The `NewNodeGroupStatefulSet` variant of src/unnamed/part_008 (an earlier
revision of the same factory, reading the workload knobs from `Spec.Cluster`). -/
def NewNodeGroupStatefulSetVariant (mesh : Mesh) (group : NodeGroup) (configChecksum : String) :
    StatefulSetRender :=
  let groupspec := group.spec.cluster.getD {}
  { name := MeshNodeGroupStatefulSetName mesh group,
    replicas := group.spec.replicas,
    pvcRetention := { whenDeleted := .delete, whenScaled := .delete },
    templateAnnotations := [(ConfigChecksumKey, configChecksum)],
    template := {
      initContainers := groupspec.initContainers,
      containers :=
        { name := "node", image := group.spec.image,
          securityContext := some nodeSecurityContext } :: groupspec.additionalContainers,
      securityContext := some podSecurityContextValue } }

structure PodRender where
  name : String
  spec : PodSpecRender
deriving DecidableEq

/-- `NewNodeGroupPod` (src/controllers/resources/pods.go). The pod-spec JSON
checksum annotation and the volumes/ports are not inspected by any claim and
are omitted. -/
def NewNodeGroupPod (mesh : Mesh) (group : NodeGroup) (confChecksum : String) (index : Nat) :
    PodRender :=
  let groupspec := group.spec.cluster.getD {}
  { name := MeshNodeGroupPodName mesh group index,
    spec := {
      initContainers := groupspec.initContainers,
      containers :=
        { name := "node", image := group.spec.image,
          securityContext := some nodeSecurityContext } :: groupspec.additionalContainers,
      securityContext := some podSecurityContextValue } }

/-! ## Load-balancer external-IP lookup (src/controllers/util.go) -/

inductive ServiceType where
  | loadBalancer
  | nodePort
  | clusterIP
  | other (s : String)
deriving DecidableEq

/-- corev1.Service, reduced to the fields `getLBExternalIPs` reads:
`Spec.Type`, the `Status.LoadBalancer.Ingress` IPs, `Spec.ClusterIPs` and
`Spec.ClusterIP`. -/
structure K8sService where
  type : ServiceType := .clusterIP
  ingressIPs : List String := []
  clusterIPs : List String := []
  clusterIP : String := ""
deriving DecidableEq

/-- Modelled from the spec: an IPv4 address as parsed by the Go standard
library (`netip.ParseAddr`); only IPv4 is carried, which suffices for every
claim (the private-address filter below is what the claims inspect). -/
structure IPv4 where
  a : Nat
  b : Nat
  c : Nat
  d : Nat
deriving DecidableEq

/-- Modelled from the spec: `netip.Addr.IsPrivate` for IPv4 — the RFC 1918
ranges 10.0.0.0/8, 172.16.0.0/12 and 192.168.0.0/16. -/
def IPv4.isPrivate (ip : IPv4) : Bool :=
  ip.a == 10 ||
  (ip.a == 172 && decide (16 ≤ ip.b) && decide (ip.b ≤ 31)) ||
  (ip.a == 192 && ip.b == 168)

/-- Modelled from the spec: `netip.Addr.String` for IPv4 (dotted quad). -/
def IPv4.render (ip : IPv4) : String :=
  natDec ip.a ++ "." ++ natDec ip.b ++ "." ++ natDec ip.c ++ "." ++ natDec ip.d

/-- Split a character list on the dot separator. -/
def splitDots : List Char → List (List Char)
  | [] => [[]]
  | c :: rest =>
    if c = '.' then [] :: splitDots rest
    else
      match splitDots rest with
      | [] => [[c]]
      | g :: gs => (c :: g) :: gs

/-- One decimal octet, up to three digits, value ≤ 255, no leading zero. -/
def parseOctet (cs : List Char) : Option Nat :=
  if decide (1 ≤ cs.length) && decide (cs.length ≤ 3) && cs.all Char.isDigit &&
      (decide (cs.length = 1) || decide (cs.head? ≠ some '0')) then
    if decide (listVal cs ≤ 255) then some (listVal cs) else none
  else none

/-- Modelled from the spec: `netip.ParseAddr` restricted to IPv4 dotted-quad
inputs; anything else fails to parse. -/
def parseAddr (s : String) : Option IPv4 :=
  match splitDots s.data with
  | [x, y, z, w] =>
    match parseOctet x, parseOctet y, parseOctet z, parseOctet w with
    | some a, some b, some c, some d => some ⟨a, b, c, d⟩
    | _, _, _, _ => none
  | _ => none

inductive LBError where
  | lbNotReady
  | parseClusterIPFailed (ip : String)
  | nodePortUnsupported
  | unknownType
deriving DecidableEq

/-- The cluster-IP loop of `getLBExternalIPs`: parse every entry (first
failure aborts) and keep only the non-private addresses, re-rendered. -/
def collectNonPrivate : List String → Except LBError (List String)
  | [] => .ok []
  | ip :: rest =>
    match parseAddr ip with
    | none => .error (.parseClusterIPFailed ip)
    | some a =>
      match collectNonPrivate rest with
      | .error e => .error e
      | .ok l => .ok (if a.isPrivate then l else a.render :: l)

/-- The type-switch body of `getLBExternalIPs` (src/controllers/util.go),
before the final emptiness check. -/
def getLBExternalIPsCore (svc : K8sService) : Except LBError (List String) :=
  match svc.type with
  | .loadBalancer =>
    if svc.ingressIPs.length = 0 then .error .lbNotReady
    else if svc.ingressIPs.contains "" then .error .lbNotReady
    else
      match collectNonPrivate svc.clusterIPs with
      | .error e => .error e
      | .ok l => .ok (svc.ingressIPs ++ l)
  | .nodePort => .error .nodePortUnsupported
  | .clusterIP =>
    match collectNonPrivate svc.clusterIPs with
    | .error e => .error e
    | .ok l =>
      match parseAddr svc.clusterIP with
      | none => .error (.parseClusterIPFailed svc.clusterIP)
      | some a => .ok (l ++ if a.isPrivate then [] else [a.render])
  | .other _ => .error .unknownType

/-- `getLBExternalIPs` (src/controllers/util.go), after the service fetch:
the type switch followed by the final `len(externalIPs) == 0` check. -/
def getLBExternalIPs (svc : K8sService) : Except LBError (List String) :=
  match getLBExternalIPsCore svc with
  | .ok l => if l.length = 0 then .error .lbNotReady else .ok l
  | .error e => .error e

/-! ## Mesh reconciler admin-config step
(src/controllers/mesh_controller.go, `buildAdminConfig`) -/

/-- The three well-known entries of the admin certificate secret
(`tls.crt`, `tls.key`, `ca.crt`); absent entries are the empty string. -/
structure AdminCertSecret where
  tlsCrt : String := ""
  tlsKey : String := ""
  caCrt : String := ""
deriving DecidableEq

/-- Base64 of a byte list, standard alphabet with padding. -/
def b64char (n : Nat) : Char :=
  "ABCDEFGHIJKLMNOPQRSTUVWXYZabcdefghijklmnopqrstuvwxyz0123456789+/".data.getD n '='

def b64 : List Nat → List Char
  | [] => []
  | [b0] => [b64char (b0 / 4), b64char (b0 % 4 * 16), '=', '=']
  | [b0, b1] => [b64char (b0 / 4), b64char (b0 % 4 * 16 + b1 / 16), b64char (b1 % 16 * 4), '=']
  | b0 :: b1 :: b2 :: rest =>
    [b64char (b0 / 4), b64char (b0 % 4 * 16 + b1 / 16),
     b64char (b1 % 16 * 4 + b2 / 64), b64char (b2 % 64)] ++ b64 rest

/-- Modelled from the spec: Go `base64.StdEncoding.EncodeToString`. -/
def base64encode (s : String) : String := ⟨b64 (strBytes s)⟩

structure CtlCluster where
  name : String := ""
  server : String := ""
  tlsVerifyChainOnly : Bool := false
  certificateAuthorityData : String := ""
deriving DecidableEq

structure CtlUser where
  name : String := ""
  clientCertificateData : String := ""
  clientKeyData : String := ""
deriving DecidableEq

structure CtlContext where
  name : String := ""
  cluster : String := ""
  user : String := ""
deriving DecidableEq

/-- The admin client-configuration bundle (`ctlcmd/config`). -/
structure CtlConfig where
  clusters : List CtlCluster := []
  users : List CtlUser := []
  contexts : List CtlContext := []
  currentContext : String := ""
deriving DecidableEq

/-- The admin-config secret to be applied (the YAML encoding of the bundle is
not inspected by any claim; the structured bundle is kept). -/
structure AdminSecretRender where
  name : String
  nspace : String
  config : CtlConfig
deriving DecidableEq

/-- Outcome of one `buildAdminConfig` invocation: a bounded requeue with a
nil error, a hard failure surfaced to the control loop, or the admin secret
being applied. -/
inductive ReconcileOutcome where
  | requeueAfter (seconds : Nat)
  | failed (msg : String)
  | applied (s : AdminSecretRender)
deriving DecidableEq

/-- `MeshReconciler.buildAdminConfig` (src/controllers/mesh_controller.go,
first revision). The two reads from the object store (the fronting service
and the admin certificate secret) are supplied as fetch results. -/
def buildAdminConfig (mesh : Mesh) (group : NodeGroup)
    (lbFetch : Except String K8sService) (secretFetch : Except String AdminCertSecret) :
    ReconcileOutcome :=
  match lbFetch with
  | .error e => .failed ("fetch load balancer service: " ++ e)
  | .ok svc =>
    match getLBExternalIPs svc with
    | .error .lbNotReady => .requeueAfter 3
    | .error _ => .failed "unable to get LB external IP"
    | .ok externalIPs =>
      match secretFetch with
      | .error e => .failed ("unable to fetch admin certificate secret: " ++ e)
      | .ok secret =>
        if secret.tlsCrt = "" || secret.tlsKey = "" || secret.caCrt = "" then
          .requeueAfter 3
        else
          .applied {
            name := MeshAdminConfigName mesh,
            nspace := mesh.nspace,
            config := {
              clusters := [{
                name := mesh.name,
                server := externalIPs.headD "" ++ ":" ++
                  natDec ((mesh.spec.bootstrap.cluster.bind NodeGroupClusterSpec.service |>.getD {}).grpcPort),
                tlsVerifyChainOnly := true,
                certificateAuthorityData := base64encode secret.caCrt }],
              users := [{
                name := mesh.name ++ "-admin",
                clientCertificateData := base64encode secret.tlsCrt,
                clientKeyData := base64encode secret.tlsKey }],
              contexts := [{ name := mesh.name, cluster := mesh.name, user := mesh.name ++ "-admin" }],
              currentContext := mesh.name } }

/-! ## Claim-level predicates and concrete inputs -/

/-- The security profile the specification claims for every user-supplied
sidecar container (stated for comparison with the rendered objects): a
non-root 65534 user, dropped capabilities, a read-only root filesystem and
the runtime-default seccomp profile, on the container or nothing weaker. -/
def sidecarLockedDown (c : Container) : Bool :=
  match c.securityContext with
  | none => false
  | some sc =>
    (match sc.capabilities with
     | some caps => decide (caps.drop ≠ [])
     | none => false) &&
    (sc.readOnlyRootFilesystem == some true) &&
    (sc.runAsUser == some 65534) &&
    (sc.seccompProfile == some "RuntimeDefault")

/-- The specification's sidecar-restriction claim over one rendered pod
specification: every container after the mesh node container is locked down. -/
def allSidecarsLockedDown (p : PodSpecRender) : Bool :=
  (p.containers.drop 1).all sidecarLockedDown

/-- Concrete render input: a bootstrap group with an empty inline config. -/
def optsC2 : Options :=
  { mesh := { name := "m" },
    group := { name := "g", spec := { config := some {} } },
    isBootstrap := true,
    certDir := "/etc/webmesh/tls/m-g-0" }

/-- The configuration rendered from `optsC2`. -/
def cfgC2 : Config :=
  (New optsC2).toOption.getD { options := {}, rawjson := "", raw := "" }

/-- Concrete render input with endpoint and peer lists out of order. -/
def optsC3 : Options :=
  { mesh := { name := "m" },
    group := { name := "g", spec := { config := some {} } },
    isBootstrap := true,
    wireGuardEndpoints := ["b.example.com:51821", "a.example.com:51820"],
    bootstrapServers := [("b", "b.example.com:9443"), ("a", "a.example.com:9443")] }

/-- Concrete render input: non-bootstrap group with an empty join server. -/
def optsC5 : Options :=
  { mesh := { name := "m" },
    group := { name := "g", spec := { config := some {} } },
    isBootstrap := false,
    joinServer := "" }

/-- Concrete render input: non-bootstrap group with a join server. -/
def optsC5b : Options :=
  { mesh := { name := "m" },
    group := { name := "g", spec := { config := some {} } },
    isBootstrap := false,
    joinServer := "join.example.com:8443" }

def meshC6 : Mesh := { name := "m" }

def groupC6 : NodeGroup := { name := "g", spec := { replicas := 2 } }

/-- Concrete fronting service whose external address is not yet assigned. -/
def svcC7 : K8sService := { type := .loadBalancer, ingressIPs := [] }

/-- Concrete fronting service with an assigned public ingress address. -/
def svcC7b : K8sService := { type := .loadBalancer, ingressIPs := ["203.0.113.7"] }

/-- Concrete group whose user-supplied sidecar sets no security context. -/
def groupC9 : NodeGroup :=
  { name := "g",
    spec := { cluster := some { additionalContainers := [{ name := "sidecar" }] } } }

/-- Concrete ClusterIP service with one public and one private address. -/
def svcC10 : K8sService :=
  { type := .clusterIP, clusterIPs := ["8.8.8.8"], clusterIP := "10.0.0.1" }

/-! # Theorems -/

/-! ## Helper lemmas -/

theorem listVal_append_singleton (l : List Char) (c : Char) :
    listVal (l ++ [c]) = 10 * listVal l + charVal c := by
  simp [listVal, List.foldl_append]

theorem charVal_digitChar (d : Nat) (h : d < 10) : charVal (digitChar d) = d := by
  interval_cases d <;> decide

theorem listVal_toDecimalAux (fuel n : Nat) (hf : n ≤ fuel) :
    listVal (toDecimalAux fuel n) = n := by
  induction fuel generalizing n with
  | zero =>
    have : n = 0 := by omega
    subst this
    simp [toDecimalAux, listVal, charVal_digitChar 0 (by omega)]
  | succ fuel ih =>
    rw [toDecimalAux]
    by_cases h : n < 10
    · rw [if_pos h]
      simp [listVal, charVal_digitChar n h]
    · rw [if_neg h]
      rw [listVal_append_singleton,
        ih (n / 10) (by omega),
        charVal_digitChar (n % 10) (Nat.mod_lt _ (by omega))]
      omega

theorem listVal_toDecimal (n : Nat) : listVal (toDecimal n) = n :=
  listVal_toDecimalAux n n (Nat.le_refl n)

theorem toDecimal_injective : Function.Injective toDecimal := by
  intro m n h
  have := listVal_toDecimal m
  rw [h, listVal_toDecimal] at this
  omega

theorem natDec_injective : Function.Injective natDec := by
  intro m n h
  apply toDecimal_injective
  have : (natDec m).data = (natDec n).data := by rw [h]
  simpa [natDec] using this

theorem sortStrings_eq_of_perm {l₁ l₂ : List String} (h : l₁.Perm l₂) :
    sortStrings l₁ = sortStrings l₂ :=
  List.eq_of_perm_of_sorted
    ((List.perm_insertionSort _ _).trans (h.trans (List.perm_insertionSort _ _).symm))
    (List.sorted_insertionSort _ _) (List.sorted_insertionSort _ _)

theorem append_natDec_inj (s : String) {i j : Nat}
    (h : s ++ "-" ++ natDec i = s ++ "-" ++ natDec j) : i = j := by
  apply natDec_injective
  apply String.ext
  have hd : (s ++ "-" ++ natDec i).data = (s ++ "-" ++ natDec j).data := by rw [h]
  rw [String.data_append, String.data_append, String.data_append, String.data_append] at hd
  exact List.append_cancel_left hd

/-! ## C1 — child-object naming -/

/-- C1 (amended): child-object naming is a total deterministic function of
(mesh name, group name, optional index) — repeated calls and any two inputs
agreeing on those three values produce identical names — and for a fixed
mesh and group, distinct indices produce distinct names; but distinct
(mesh name, group name) pairs can collide (see the counterexample), so full
injectivity fails. -/
theorem C1_naming (m₁ m₂ : Mesh) (g₁ g₂ : NodeGroup) (i j : Nat)
    (hm : m₁.name = m₂.name) (hg : g₁.name = g₂.name) :
    MeshNodeGroupStatefulSetName m₁ g₁ = MeshNodeGroupStatefulSetName m₂ g₂ ∧
    MeshNodeGroupPodName m₁ g₁ i = MeshNodeGroupPodName m₂ g₂ i ∧
    (MeshNodeGroupPodName m₁ g₁ i = MeshNodeGroupPodName m₁ g₁ j → i = j) := by
  have hss : MeshNodeGroupStatefulSetName m₁ g₁ = MeshNodeGroupStatefulSetName m₂ g₂ := by
    simp [MeshNodeGroupStatefulSetName, hm, hg]
  refine ⟨hss, ?_, ?_⟩
  · simp [MeshNodeGroupPodName, hss]
  · intro h
    exact append_natDec_inj _ h

/-- C1 witness: the amended theorem applied at concrete inputs (two meshes
agreeing on the name but not the namespace, and a concrete index pair). -/
theorem C1_naming_witness :
    MeshNodeGroupStatefulSetName { name := "m", nspace := "ns1" } { name := "g" } =
      MeshNodeGroupStatefulSetName { name := "m", nspace := "ns2" } { name := "g" } ∧
    ((7 : Nat) = 7) :=
  ⟨(C1_naming { name := "m", nspace := "ns1" } { name := "m", nspace := "ns2" }
      { name := "g" } { name := "g" } 0 0 rfl rfl).1,
   (C1_naming { name := "m", nspace := "ns1" } { name := "m", nspace := "ns1" }
      { name := "g" } { name := "g" } 7 7 rfl rfl).2.2 rfl⟩

/-- C1 counterexample: the prefix-collapsing rule makes naming non-injective —
mesh "a" with group "a-b" and mesh "a" with group "b" are distinct inputs that
generate the same name. -/
theorem C1_naming_cex :
    MeshNodeGroupStatefulSetName { name := "a" } { name := "a-b" } =
      MeshNodeGroupStatefulSetName { name := "a" } { name := "b" } ∧
    ({ name := "a-b" } : NodeGroup).name ≠ ({ name := "b" } : NodeGroup).name := by
  constructor
  · decide
  · decide

/-! ## C4 — NodeGroupConfig merge -/

/-- C4 (as stated): merging nil into nil yields the fully defaulted
configuration; with both sides present, non-empty override scalars replace
the base value and empty ones preserve it, override booleans OR into the
result, a missing override keeps the base (and vice versa), and the nested
services structure merges recursively under the same rule. -/
theorem C4_merge_rules :
    (NodeGroupConfig.merge none none =
      { logLevel := "info", noIPv6 := false, voter := false, services := none }) ∧
    (∀ c i : NodeGroupConfig,
      NodeGroupConfig.merge (some c) none = c ∧
      NodeGroupConfig.merge none (some i) = i ∧
      (NodeGroupConfig.merge (some c) (some i)).logLevel =
        (if i.logLevel = "" then c.logLevel else i.logLevel) ∧
      (NodeGroupConfig.merge (some c) (some i)).noIPv6 = (c.noIPv6 || i.noIPv6) ∧
      (NodeGroupConfig.merge (some c) (some i)).services =
        (match i.services with
         | none => c.services
         | some s => some (NodeServicesConfig.mergeSome (c.services.getD {}) s))) ∧
    (∀ cs is' : NodeServicesConfig,
      (NodeServicesConfig.mergeSome cs is').enableLeaderProxy =
        (cs.enableLeaderProxy || is'.enableLeaderProxy) ∧
      (NodeServicesConfig.mergeSome cs is').enableMeshAPI =
        (cs.enableMeshAPI || is'.enableMeshAPI) ∧
      (NodeServicesConfig.mergeSome cs is').enablePeerDiscoveryAPI =
        (cs.enablePeerDiscoveryAPI || is'.enablePeerDiscoveryAPI) ∧
      (NodeServicesConfig.mergeSome cs is').metrics =
        (if is'.metrics.isSome then some (NodeMetricsConfig.merge cs.metrics is'.metrics)
         else cs.metrics)) ∧
    (∀ cm im : NodeMetricsConfig,
      (NodeMetricsConfig.mergeSome cm im).listenAddress =
        (if im.listenAddress = "" then cm.listenAddress else im.listenAddress) ∧
      (NodeMetricsConfig.mergeSome cm im).path =
        (if im.path = "" then cm.path else im.path)) := by
  refine ⟨rfl, ?_, ?_, ?_⟩
  · intro c i
    refine ⟨rfl, rfl, ?_, ?_, ?_⟩
    · by_cases h : i.logLevel = "" <;>
        simp [NodeGroupConfig.merge, NodeGroupConfig.mergeSome, h]
    · cases hb : i.noIPv6 <;>
        simp [NodeGroupConfig.merge, NodeGroupConfig.mergeSome, hb]
    · cases hs : i.services <;>
        simp [NodeGroupConfig.merge, NodeGroupConfig.mergeSome, NodeServicesConfig.merge, hs]
  · intro cs is'
    refine ⟨?_, ?_, ?_, rfl⟩
    · cases hb : is'.enableLeaderProxy <;> simp [NodeServicesConfig.mergeSome, hb]
    · cases hb : is'.enableMeshAPI <;> simp [NodeServicesConfig.mergeSome, hb]
    · cases hb : is'.enablePeerDiscoveryAPI <;> simp [NodeServicesConfig.mergeSome, hb]
  · intro cm im
    constructor
    · by_cases h : im.listenAddress = "" <;> simp [NodeMetricsConfig.mergeSome, h]
    · by_cases h : im.path = "" <;> simp [NodeMetricsConfig.mergeSome, h]

/-! ## C8 — PVC retention policy -/

/-- C8 (amended): the current StatefulSet factory
(src/controllers/resources/statefulsets.go) always retains claims on
scale-in and deletes them on group deletion, while the earlier factory
revision (src/unnamed/part_008) deletes in both situations — the two
renderer variants disagree, so "every StatefulSet" is too strong. -/
theorem C8_pvc_retention (mesh : Mesh) (group : NodeGroup) (ck : String) :
    (NewNodeGroupStatefulSet mesh group ck).pvcRetention =
      { whenDeleted := .delete, whenScaled := .retain } ∧
    (NewNodeGroupStatefulSetVariant mesh group ck).pvcRetention =
      { whenDeleted := .delete, whenScaled := .delete } :=
  ⟨rfl, rfl⟩

/-- C8 counterexample: the part_008 renderer variant produces a StatefulSet
whose scale-in retention is Delete, not Retain as claimed. -/
theorem C8_pvc_retention_cex :
    (NewNodeGroupStatefulSetVariant { name := "m" } { name := "g" } "ck").pvcRetention.whenScaled ≠
      PVCRetentionPolicyType.retain := by
  decide

/-! ## C9 — security-context asymmetry -/

/-- C9 (amended): in every rendered pod specification (standalone pod,
current StatefulSet template and part_008 variant template) exactly the mesh
"node" container — the head of the container list — carries the escalated
profile (privileged, uid/gid 0, added NET_ADMIN/NET_RAW/SYS_MODULE); the
user-supplied sidecars pass through unchanged (no dropped-capability or
read-only-root-filesystem profile is injected for them), and the pod-level
default is exactly uid/gid/fsGroup 65534, non-root, runtime-default seccomp. -/
theorem C9_security_asymmetry (mesh : Mesh) (group : NodeGroup) (ck : String) (index : Nat) :
    ((NewNodeGroupPod mesh group ck index).spec.containers.head? = some
      { name := "node", image := group.spec.image,
        securityContext := some nodeSecurityContext } ∧
     (NewNodeGroupPod mesh group ck index).spec.containers.drop 1 =
       (group.spec.cluster.getD {}).additionalContainers ∧
     (NewNodeGroupPod mesh group ck index).spec.securityContext =
       some podSecurityContextValue) ∧
    ((NewNodeGroupStatefulSet mesh group ck).template.containers.head? = some
      { name := "node", image := group.spec.image,
        securityContext := some nodeSecurityContext } ∧
     (NewNodeGroupStatefulSet mesh group ck).template.containers.drop 1 =
       group.spec.additionalContainers ∧
     (NewNodeGroupStatefulSet mesh group ck).template.securityContext =
       some podSecurityContextValue) ∧
    ((NewNodeGroupStatefulSetVariant mesh group ck).template.containers.head? = some
      { name := "node", image := group.spec.image,
        securityContext := some nodeSecurityContext } ∧
     (NewNodeGroupStatefulSetVariant mesh group ck).template.containers.drop 1 =
       (group.spec.cluster.getD {}).additionalContainers ∧
     (NewNodeGroupStatefulSetVariant mesh group ck).template.securityContext =
       some podSecurityContextValue) :=
  ⟨⟨rfl, rfl, rfl⟩, ⟨rfl, rfl, rfl⟩, ⟨rfl, rfl, rfl⟩⟩

/-- C9 counterexample: a user-supplied sidecar with no security context of
its own is rendered unchanged — neither dropped capabilities nor a read-only
root filesystem is applied to it (the pod-level context cannot express
either), so the claimed "maximally restrictive" sidecar profile is false. -/
theorem C9_security_asymmetry_cex :
    allSidecarsLockedDown (NewNodeGroupPod { name := "m" } groupC9 "" 0).spec = false := by
  decide

/-! ## C5 — join server required -/

theorem finishOptions_meshMesh (opts : Options) (g : NodeGroupConfig) (o : NodeCmdOptions) :
    (finishOptions opts g o).meshMesh = o.meshMesh := by
  rcases hs : g.services with _ | svc <;> simp [finishOptions, hs]

/-- C5: for a non-bootstrap render input whose config-group resolution
succeeds, an empty join-server address makes `New` fail with the
join-server-required error and produce no configuration, and a non-empty
join-server address makes `New` succeed with that address as the join
target. -/
theorem C5_join_server (opts : Options) (gc : Option NodeGroupConfig)
    (hres : resolveGroupConfig opts.mesh opts.group = .ok gc)
    (hb : opts.isBootstrap = false) :
    (opts.joinServer = "" → New opts = .error .joinServerRequired) ∧
    (opts.joinServer ≠ "" →
      (New opts).map (fun c => c.options.meshMesh.joinAddress) = .ok opts.joinServer) := by
  constructor
  · intro hj
    simp [New, buildOptions, hres, hb, hj, Except.map]
  · intro hj
    simp only [New, buildOptions, hres, hb, Bool.false_eq_true, if_false, if_neg hj,
      Except.map]
    rw [finishOptions_meshMesh]

/-- C5 witness: the theorem applied to a concrete non-bootstrap input with an
empty join server (failure) and to one with a join server (success with that
join target). -/
theorem C5_join_server_witness :
    New optsC5 = .error .joinServerRequired ∧
    (New optsC5b).map (fun c => c.options.meshMesh.joinAddress) =
      .ok "join.example.com:8443" :=
  ⟨(C5_join_server optsC5 (some {}) rfl rfl).1 rfl,
   (C5_join_server optsC5b (some {}) rfl rfl).2 (by decide)⟩

/-! ## C10 — external-address lookup -/

theorem collectNonPrivate_sound (l : List String) (out : List String)
    (h : collectNonPrivate l = .ok out) :
    ∀ s ∈ out, ∃ a : IPv4, s = a.render ∧ a.isPrivate = false := by
  induction l generalizing out with
  | nil =>
    simp only [collectNonPrivate, Except.ok.injEq] at h
    subst h
    simp
  | cons ip rest ih =>
    simp only [collectNonPrivate] at h
    cases hp : parseAddr ip with
    | none => rw [hp] at h; cases h
    | some a =>
      rw [hp] at h
      cases hr : collectNonPrivate rest with
      | error e => rw [hr] at h; cases h
      | ok l' =>
        rw [hr] at h
        simp only [Except.ok.injEq] at h
        subst h
        by_cases hpriv : a.isPrivate
        · rw [if_pos hpriv]
          exact ih l' hr
        · rw [if_neg hpriv]
          intro s hs
          rcases List.mem_cons.mp hs with hh | ht
          · exact ⟨a, hh, by simpa using hpriv⟩
          · exact ih l' hr s ht

theorem getLB_ok_ne_nil (svc : K8sService) (ips : List String)
    (h : getLBExternalIPs svc = .ok ips) : ips ≠ [] := by
  cases hc : getLBExternalIPsCore svc with
  | error e =>
    simp only [getLBExternalIPs, hc] at h
    exact Except.noConfusion h
  | ok l =>
    simp only [getLBExternalIPs, hc] at h
    by_cases hl : l.length = 0
    · rw [if_pos hl] at h
      exact Except.noConfusion h
    · rw [if_neg hl] at h
      simp only [Except.ok.injEq] at h
      subst h
      intro hnil
      exact hl (by simp [hnil])

/-- C10: the external-address lookup never succeeds with an empty list; a
NodePort service yields the hard node-port-unsupported error (a different
error from the recoverable not-ready condition); and for a ClusterIP service
every returned entry is the rendering of a non-private address. -/
theorem C10_external_ips (svc : K8sService) :
    (∀ ips, getLBExternalIPs svc = .ok ips → ips ≠ []) ∧
    (svc.type = .nodePort →
      getLBExternalIPs svc = .error .nodePortUnsupported ∧
      LBError.nodePortUnsupported ≠ LBError.lbNotReady) ∧
    (svc.type = .clusterIP → ∀ ips, getLBExternalIPs svc = .ok ips →
      ∀ s ∈ ips, ∃ a : IPv4, s = a.render ∧ a.isPrivate = false) := by
  refine ⟨fun ips h => getLB_ok_ne_nil svc ips h, ?_, ?_⟩
  · intro ht
    refine ⟨?_, by decide⟩
    unfold getLBExternalIPs getLBExternalIPsCore
    rw [ht]
  · intro ht ips hok s hs
    cases hc : getLBExternalIPsCore svc with
    | error e =>
      simp only [getLBExternalIPs, hc] at hok
      exact Except.noConfusion hok
    | ok l =>
      simp only [getLBExternalIPs, hc] at hok
      by_cases hl : l.length = 0
      · rw [if_pos hl] at hok
        exact Except.noConfusion hok
      · rw [if_neg hl] at hok
        simp only [Except.ok.injEq] at hok
        subst hok
        unfold getLBExternalIPsCore at hc
        rw [ht] at hc
        cases hr : collectNonPrivate svc.clusterIPs with
        | error e => rw [hr] at hc; cases hc
        | ok l' =>
          rw [hr] at hc
          cases hp : parseAddr svc.clusterIP with
          | none => rw [hp] at hc; cases hc
          | some a =>
            rw [hp] at hc
            simp only [Except.ok.injEq] at hc
            subst hc
            rcases List.mem_append.mp hs with hmem | hmem
            · exact collectNonPrivate_sound _ _ hr s hmem
            · by_cases hpriv : a.isPrivate
              · rw [if_pos hpriv] at hmem
                cases hmem
              · rw [if_neg hpriv] at hmem
                rcases List.mem_singleton.mp hmem with rfl
                exact ⟨a, rfl, by simpa using hpriv⟩

/-- C10 witness: the theorem applied to a concrete ClusterIP service with one
public and one private address. -/
theorem C10_external_ips_witness :
    getLBExternalIPs svcC10 = .ok ["8.8.8.8"] ∧
    (["8.8.8.8"] : List String) ≠ [] ∧
    (∃ a : IPv4, "8.8.8.8" = a.render ∧ a.isPrivate = false) := by
  have h0 : getLBExternalIPs svcC10 = .ok ["8.8.8.8"] := by rfl
  exact ⟨h0, (C10_external_ips svcC10).1 _ h0,
    (C10_external_ips svcC10).2.2 rfl _ h0 "8.8.8.8" (by simp)⟩

/-! ## C7 — admin-config step -/

/-- C7: in the mesh reconciler's admin-config step, a not-yet-ready fronting
service (ErrLBNotReady) and an incomplete admin certificate secret both yield
a 3-second requeue with no error; the admin client-configuration secret is
applied only when the lookup returned a non-empty address list and all three
certificate entries are non-empty. -/
theorem C7_admin_config (mesh : Mesh) (group : NodeGroup) (svc : K8sService)
    (sf : Except String AdminCertSecret) (secret : AdminCertSecret) :
    (getLBExternalIPs svc = .error .lbNotReady →
      buildAdminConfig mesh group (.ok svc) sf = .requeueAfter 3) ∧
    ((secret.tlsCrt = "" ∨ secret.tlsKey = "" ∨ secret.caCrt = "") →
      ∀ ips, getLBExternalIPs svc = .ok ips →
        buildAdminConfig mesh group (.ok svc) (.ok secret) = .requeueAfter 3) ∧
    (∀ out, buildAdminConfig mesh group (.ok svc) (.ok secret) = .applied out →
      (∃ ips, getLBExternalIPs svc = .ok ips ∧ ips ≠ []) ∧
      secret.tlsCrt ≠ "" ∧ secret.tlsKey ≠ "" ∧ secret.caCrt ≠ "") := by
  refine ⟨?_, ?_, ?_⟩
  · intro h
    simp [buildAdminConfig, h]
  · intro hmiss ips hok
    have hcond : (decide (secret.tlsCrt = "") || decide (secret.tlsKey = "") ||
        decide (secret.caCrt = "")) = true := by
      rcases hmiss with h | h | h <;> simp [h]
    simp [buildAdminConfig, hok, hcond]
  · intro out h
    cases hc : getLBExternalIPs svc with
    | error e =>
      simp only [buildAdminConfig, hc] at h
      cases e <;> exact ReconcileOutcome.noConfusion h
    | ok ips =>
      simp only [buildAdminConfig, hc] at h
      by_cases hcond : (decide (secret.tlsCrt = "") || decide (secret.tlsKey = "") ||
          decide (secret.caCrt = "")) = true
      · rw [if_pos hcond] at h
        exact ReconcileOutcome.noConfusion h
      · rw [if_neg hcond] at h
        simp only [Bool.or_eq_true, decide_eq_true_eq, not_or] at hcond
        exact ⟨⟨ips, rfl, getLB_ok_ne_nil svc ips hc⟩, hcond.1.1, hcond.1.2, hcond.2⟩

/-- C7 witness: the theorem applied to a concrete unassigned load balancer
(requeue) and to a ready one with an empty certificate secret (requeue). -/
theorem C7_admin_config_witness :
    buildAdminConfig { name := "m" } { name := "g" } (.ok svcC7) (.ok {}) = .requeueAfter 3 ∧
    buildAdminConfig { name := "m" } { name := "g" } (.ok svcC7b) (.ok {}) = .requeueAfter 3 :=
  ⟨(C7_admin_config { name := "m" } { name := "g" } svcC7 (.ok {}) {}).1 (by rfl),
   (C7_admin_config { name := "m" } { name := "g" } svcC7b (.ok {}) {}).2.1
     (Or.inl rfl) ["203.0.113.7"] (by rfl)⟩

/-! ## C6 — edge-proxy routers -/

/-- C6: for a group with N ≥ 1 replicas the rendered edge-proxy configuration
has exactly one TCP router (the gRPC TLS-passthrough route), whose single
backend service load-balances over all N replica addresses on the gRPC port,
and exactly N UDP routers, the i-th targeting a service whose sole backend is
replica i's address on WireGuard port 51820 + i. -/
theorem C6_lb_routers (mesh : Mesh) (group : NodeGroup)
    (hrep : 1 ≤ group.spec.replicas) :
    (NewNodeGroupLBConfig mesh group).tcp.routers =
      [("grpc",
        { entryPoints := ["grpc"], service := "grpc", rule := "HostSNI(`*`)",
          tlsPassthrough := true })] ∧
    ((NewNodeGroupLBConfig mesh group).tcp.services.map Prod.fst = ["grpc"]) ∧
    (∀ sv, ((NewNodeGroupLBConfig mesh group).tcp.services.map Prod.snd) = [sv] →
      sv.loadBalancer.servers.length = group.spec.replicas ∧
      ∀ i, i < group.spec.replicas →
        sv.loadBalancer.servers[i]? = some
          { address := MeshNodeClusterFQDN mesh group i ++ ":" ++ natDec DefaultGRPCPort }) ∧
    ((NewNodeGroupLBConfig mesh group).udp.routers.length = group.spec.replicas) ∧
    (∀ i, i < group.spec.replicas →
      (NewNodeGroupLBConfig mesh group).udp.routers[i]? = some
        ("wireguard-" ++ natDec i,
         { entryPoints := ["wireguard-" ++ natDec i], service := "wireguard-" ++ natDec i }) ∧
      (NewNodeGroupLBConfig mesh group).udp.services[i]? = some
        ("wireguard-" ++ natDec i,
         { loadBalancer :=
           { servers :=
             [{ address := MeshNodeClusterFQDN mesh group i ++ ":" ++
                natDec (DefaultWireGuardPort + i) }] } })) := by
  refine ⟨rfl, rfl, ?_, by simp [NewNodeGroupLBConfig], ?_⟩
  · intro sv hsv
    simp only [NewNodeGroupLBConfig, List.map_cons, List.map_nil, List.cons.injEq,
      and_true] at hsv
    subst hsv
    constructor
    · simp
    · intro i hi
      simp [List.getElem?_map, List.getElem?_range, hi]
  · intro i hi
    constructor
    · simp [NewNodeGroupLBConfig, List.getElem?_map, List.getElem?_range, hi]
    · simp [NewNodeGroupLBConfig, List.getElem?_map, List.getElem?_range, hi]

/-- C6 witness: the theorem applied to a concrete 2-replica group. -/
theorem C6_lb_routers_witness :
    (NewNodeGroupLBConfig meshC6 groupC6).tcp.routers.length = 1 ∧
    (NewNodeGroupLBConfig meshC6 groupC6).udp.routers.length = 2 ∧
    (NewNodeGroupLBConfig meshC6 groupC6).udp.services[1]? = some
      ("wireguard-1",
       { loadBalancer :=
         { servers :=
           [{ address := MeshNodeClusterFQDN meshC6 groupC6 1 ++ ":" ++
              natDec (DefaultWireGuardPort + 1) }] } }) := by
  have H := C6_lb_routers meshC6 groupC6 (by decide)
  refine ⟨by rw [H.1]; rfl, ?_, (H.2.2.2.2 1 (by decide)).2⟩
  have := H.2.2.2.1
  simpa using this

/-! ## C3 — checksum stability under permutation -/

/-- C3: rendering with the tunnel-endpoint list in any order, or the
bootstrap peer-address map in any iteration order, yields the same checksum:
both are sorted before joining, so two render inputs differing only by those
permutations produce identical configurations. -/
theorem C3_checksum_perm (opts : Options) (wges : List String)
    (bsrv : List (String × String))
    (hw : wges.Perm opts.wireGuardEndpoints) (hb : bsrv.Perm opts.bootstrapServers) :
    (New { opts with wireGuardEndpoints := wges, bootstrapServers := bsrv }).map
        Config.Checksum =
      (New opts).map Config.Checksum := by
  have e1 : wges.length = opts.wireGuardEndpoints.length := hw.length_eq
  have e2 : sortStrings wges = sortStrings opts.wireGuardEndpoints := sortStrings_eq_of_perm hw
  have e3 : bsrv.length = opts.bootstrapServers.length := hb.length_eq
  have e4 : sortStrings (bsrv.map fun p => p.1 ++ "=" ++ p.2) =
      sortStrings (opts.bootstrapServers.map fun p => p.1 ++ "=" ++ p.2) :=
    sortStrings_eq_of_perm (hb.map _)
  have hfo : ∀ (g : NodeGroupConfig) (o : NodeCmdOptions),
      finishOptions { opts with wireGuardEndpoints := wges, bootstrapServers := bsrv } g o =
        finishOptions opts g o := by
    intro g o
    unfold finishOptions
    rfl
  have hbo : buildOptions { opts with wireGuardEndpoints := wges, bootstrapServers := bsrv } =
      buildOptions opts := by
    simp only [buildOptions, e1, e2, e3, e4, hfo]
  simp only [New, hbo]

/-- C3 witness: the theorem applied to a concrete render input whose endpoint
list and peer map are reordered. -/
theorem C3_checksum_perm_witness :
    (New { optsC3 with
        wireGuardEndpoints := ["a.example.com:51820", "b.example.com:51821"],
        bootstrapServers := [("a", "a.example.com:9443"), ("b", "b.example.com:9443")] }).map
      Config.Checksum =
    (New optsC3).map Config.Checksum :=
  C3_checksum_perm optsC3
    ["a.example.com:51820", "b.example.com:51821"]
    [("a", "a.example.com:9443"), ("b", "b.example.com:9443")]
    (by decide) (by decide)

/-! ## C2 — checksum versus Raw -/

/-- C2 (amended): for every successfully rendered configuration the checksum
is the hex SHA-256 of the canonical JSON serialization (`rawjson`) of the
options, computed once at render time, while `Raw()` returns the wire-form
serialization of those same options — the two serialized forms are distinct
in general, so the checksum is not the hash of the `Raw()` bytes. -/
theorem C2_checksum (opts : Options) (c : Config) (h : New opts = .ok c) :
    Config.Checksum c = sha256hex (strBytes (jsonMarshal c.options)) ∧
    Config.Raw c = marshalTo c.options := by
  cases hbo : buildOptions opts with
  | error e =>
    simp only [New, hbo, Except.map] at h
    exact Except.noConfusion h
  | ok o =>
    simp only [New, hbo, Except.map, Except.ok.injEq] at h
    subst h
    exact ⟨rfl, rfl⟩

/-- C2 witness: the amended theorem applied to a concrete successful render. -/
theorem C2_checksum_witness :
    New optsC2 = .ok cfgC2 ∧
    Config.Checksum cfgC2 = sha256hex (strBytes (jsonMarshal cfgC2.options)) := by
  have h : New optsC2 = .ok cfgC2 := by rfl
  exact ⟨h, (C2_checksum optsC2 cfgC2 h).1⟩

set_option maxRecDepth 40000

/-- `sha256` as a fold of `processChunk` from the initial hash value. -/
theorem sha256_foldl (msg : List Nat) :
    sha256 msg = (chunks16 (words16 (shaPad msg))).foldl processChunk
      ⟨1779033703, 3144134277, 1013904242, 2773480762, 1359893119, 2600822924, 528734635, 1541459225⟩ :=
  rfl

/-- The 64-byte blocks of the padded serialized form, as 32-bit words. -/
theorem c2j_chunks :
    chunks16 (words16 (shaPad (strBytes (jsonMarshal cfgC2.options)))) =
      [[2065852268, 1868718444, 574257954, 1819240237, 1818588773, 1814182434, 573317748,
      1819487587, 1701999661, 1718185061, 574235183, 1702126383, 2003133037, 1702062127,
      1953264431, 1831692077], [808416364, 1932419954, 1948396578, 1953264429, 1801812269,
      1718185061, 574235183, 1702126383, 2003133037, 1702062127, 1953264431, 1831692077,
      808416364, 1932421989, 2032282658, 1953264429], [1667312998, 1768711458, 975318885,
      1952657271, 1700949349, 1936207732, 1819488109, 761736496, 795042094, 1668445218,
      740453748, 1819484730, 1953658213, 740456037, 1919510137, 761489505], [1768828271,
      1852602658, 979788140, 1936010274, 1852779881, 1886795298, 979788140, 1936010274,
      1684370533, 1668558181, 1852076143, 1768846451, 574252641, 1819501868, 576810092,
      1870081394], [1701670772, 1697473637, 1952801652, 1768910370, 979788140, 1936010274,
      1684370533, 1668558185, 1886795298, 979788140, 1936031020, 577594739, 1747073659,
      577594739, 1747073659, 578449262], [1697472887, 1634887022, 1702064941, 1768170042,
      577184300, 577794665, 1835102841, 761622116, 1886349678, 1948400162, 573317751,
      1769104743, 1969320548, 761622116, 1886349678, 1953702458], [572664866, 1785686382,
      761357412, 1919251315, 574235170, 740452975, 1768828257, 1932359279, 1952805410,
      979788140, 1936031020, 576876399, 1953723506, 1634738746, 2065851758, 1633840229],
      [1679964788, 1920296236, 576808045, 1768825402, 577580385, 1684892014, 573317737,
      1886794797, 1852142711, 1869769506, 975315500, 577004902, 1635085428, 762209652,
      2003792491, 762343276], [1768126754, 975315500, 576808054, 1701999721, 1936010593,
      1684304485, 1936925242, 572664866, 1987015781, 1920148026, 572664866, 1936028278,
      1701999394, 975315581, 740455009, 1718886970], [2065851489, 1952525668, 1769087546,
      572664866, 1768828269, 1701670770, 2032286324, 1920296236, 577529185, 1986342255,
      1848472424, 1970562159, 2003706426, 1717660787, 1702702114, 2003399269], [1735745906,
      1679964795, 577791346, 1936290676, 1701737517, 1801807216, 1634494838, 1696741936,
      740451951, 1919116589, 1768846437, 1919312227, 1697476193, 1835344442, 1953658213,
      740453481], [1937007982, 762343282, 1948400176, 2105355298, 1936028278, 1768121715,
      574257954, 1634756898, 981148268, 1700881509, 1915580530, 1870166306, 980710005,
      1697391223, 1700950644, 1663187558], [1634497381, 740453733, 1936204346, 1717660787,
      1697391216, 1701147181, 1684632419, 1870030194, 2032286310, 1634497381, 740450660,
      1835626018, 979788140, 1936010274, 1937012078, 762537330], [1986359923, 574235170,
      2100044397, 1702062125, 1684960034, 981148261, 1851875948, 1701061178, 1717660787,
      1697391212, 1769174117, 1848472932, 1881291298, 573317740, 1769174117, 1848472675],
      [1881291298, 578628642, 1835365490, 1768125218, 981148261, 1851875948, 1701061178,
      1717660787, 1697391212, 1769174117, 1848467812, 1685218675, 1931622946, 573317744,
      1635018786, 975315581], [2105376768, 0, 0, 0, 0, 0, 0, 0, 0, 0, 0, 0, 0, 0, 0, 7696]] := by
  decide

/-- Compression of block 1. -/
theorem c2j_step1 :
    processChunk ⟨1779033703, 3144134277, 1013904242, 2773480762, 1359893119, 2600822924,
    528734635, 1541459225⟩ [2065852268, 1868718444, 574257954, 1819240237, 1818588773,
    1814182434, 573317748, 1819487587, 1701999661, 1718185061, 574235183, 1702126383,
    2003133037, 1702062127, 1953264431, 1831692077] = ⟨647869719, 4058786970, 2405093285,
    1486499288, 4111568270, 1884109172, 1522416887, 4188691722⟩ := by
  decide

/-- Compression of block 2. -/
theorem c2j_step2 :
    processChunk ⟨647869719, 4058786970, 2405093285, 1486499288, 4111568270, 1884109172,
    1522416887, 4188691722⟩ [808416364, 1932419954, 1948396578, 1953264429, 1801812269,
    1718185061, 574235183, 1702126383, 2003133037, 1702062127, 1953264431, 1831692077,
    808416364, 1932421989, 2032282658, 1953264429] = ⟨4239668112, 3482317002, 2580150373,
    597052980, 4125715072, 793559265, 1640644334, 3251530466⟩ := by
  decide

/-- Compression of block 3. -/
theorem c2j_step3 :
    processChunk ⟨4239668112, 3482317002, 2580150373, 597052980, 4125715072, 793559265,
    1640644334, 3251530466⟩ [1667312998, 1768711458, 975318885, 1952657271, 1700949349,
    1936207732, 1819488109, 761736496, 795042094, 1668445218, 740453748, 1819484730,
    1953658213, 740456037, 1919510137, 761489505] = ⟨232393861, 4177219040, 3895639021,
    111935205, 2964359197, 744390075, 1853013338, 2086246615⟩ := by
  decide

/-- Compression of block 4. -/
theorem c2j_step4 :
    processChunk ⟨232393861, 4177219040, 3895639021, 111935205, 2964359197, 744390075,
    1853013338, 2086246615⟩ [1768828271, 1852602658, 979788140, 1936010274, 1852779881,
    1886795298, 979788140, 1936010274, 1684370533, 1668558181, 1852076143, 1768846451,
    574252641, 1819501868, 576810092, 1870081394] = ⟨1581266044, 137339849, 1805210016,
    1141410566, 88185832, 4031761383, 1256453990, 1496150186⟩ := by
  decide

/-- Compression of block 5. -/
theorem c2j_step5 :
    processChunk ⟨1581266044, 137339849, 1805210016, 1141410566, 88185832, 4031761383,
    1256453990, 1496150186⟩ [1701670772, 1697473637, 1952801652, 1768910370, 979788140,
    1936010274, 1684370533, 1668558185, 1886795298, 979788140, 1936031020, 577594739,
    1747073659, 577594739, 1747073659, 578449262] = ⟨1531744472, 1660055067, 213709613,
    1642459752, 98377816, 2272533293, 686800305, 1931789385⟩ := by
  decide

/-- Compression of block 6. -/
theorem c2j_step6 :
    processChunk ⟨1531744472, 1660055067, 213709613, 1642459752, 98377816, 2272533293,
    686800305, 1931789385⟩ [1697472887, 1634887022, 1702064941, 1768170042, 577184300,
    577794665, 1835102841, 761622116, 1886349678, 1948400162, 573317751, 1769104743,
    1969320548, 761622116, 1886349678, 1953702458] = ⟨2210965130, 1850649716, 1986501793,
    3964722798, 212610121, 3392246691, 1152803880, 2445672297⟩ := by
  decide

/-- Compression of block 7. -/
theorem c2j_step7 :
    processChunk ⟨2210965130, 1850649716, 1986501793, 3964722798, 212610121, 3392246691,
    1152803880, 2445672297⟩ [572664866, 1785686382, 761357412, 1919251315, 574235170,
    740452975, 1768828257, 1932359279, 1952805410, 979788140, 1936031020, 576876399,
    1953723506, 1634738746, 2065851758, 1633840229] = ⟨1965684038, 637188400, 107421459,
    2611625340, 353807408, 3792095403, 871841112, 1699162291⟩ := by
  decide

/-- Compression of block 8. -/
theorem c2j_step8 :
    processChunk ⟨1965684038, 637188400, 107421459, 2611625340, 353807408, 3792095403,
    871841112, 1699162291⟩ [1679964788, 1920296236, 576808045, 1768825402, 577580385,
    1684892014, 573317737, 1886794797, 1852142711, 1869769506, 975315500, 577004902,
    1635085428, 762209652, 2003792491, 762343276] = ⟨336637201, 2801518063, 963924294,
    2451235722, 279240524, 3757133205, 3271067510, 2089853943⟩ := by
  decide

/-- Compression of block 9. -/
theorem c2j_step9 :
    processChunk ⟨336637201, 2801518063, 963924294, 2451235722, 279240524, 3757133205,
    3271067510, 2089853943⟩ [1768126754, 975315500, 576808054, 1701999721, 1936010593,
    1684304485, 1936925242, 572664866, 1987015781, 1920148026, 572664866, 1936028278,
    1701999394, 975315581, 740455009, 1718886970] = ⟨205178107, 1467738513, 2686410030,
    3949398880, 2230946749, 3599879494, 1409994997, 3317245248⟩ := by
  decide

/-- Compression of block 10. -/
theorem c2j_step10 :
    processChunk ⟨205178107, 1467738513, 2686410030, 3949398880, 2230946749, 3599879494,
    1409994997, 3317245248⟩ [2065851489, 1952525668, 1769087546, 572664866, 1768828269,
    1701670770, 2032286324, 1920296236, 577529185, 1986342255, 1848472424, 1970562159,
    2003706426, 1717660787, 1702702114, 2003399269] = ⟨441222966, 4093390576, 2505495430,
    1456345896, 2567704849, 4220059343, 3834534670, 1592644567⟩ := by
  decide

/-- Compression of block 11. -/
theorem c2j_step11 :
    processChunk ⟨441222966, 4093390576, 2505495430, 1456345896, 2567704849, 4220059343,
    3834534670, 1592644567⟩ [1735745906, 1679964795, 577791346, 1936290676, 1701737517,
    1801807216, 1634494838, 1696741936, 740451951, 1919116589, 1768846437, 1919312227,
    1697476193, 1835344442, 1953658213, 740453481] = ⟨870550997, 799172189, 2127591042,
    883451770, 878435405, 2885341342, 598827326, 2528324167⟩ := by
  decide

/-- Compression of block 12. -/
theorem c2j_step12 :
    processChunk ⟨870550997, 799172189, 2127591042, 883451770, 878435405, 2885341342,
    598827326, 2528324167⟩ [1937007982, 762343282, 1948400176, 2105355298, 1936028278,
    1768121715, 574257954, 1634756898, 981148268, 1700881509, 1915580530, 1870166306,
    980710005, 1697391223, 1700950644, 1663187558] = ⟨625013525, 3623110523, 3411683590,
    2187831272, 2664403716, 4120051780, 4056283710, 1889192440⟩ := by
  decide

/-- Compression of block 13. -/
theorem c2j_step13 :
    processChunk ⟨625013525, 3623110523, 3411683590, 2187831272, 2664403716, 4120051780,
    4056283710, 1889192440⟩ [1634497381, 740453733, 1936204346, 1717660787, 1697391216,
    1701147181, 1684632419, 1870030194, 2032286310, 1634497381, 740450660, 1835626018,
    979788140, 1936010274, 1937012078, 762537330] = ⟨2239344049, 323630496, 1064160002,
    1029555468, 2157615498, 3834125711, 1653766079, 3349973017⟩ := by
  decide

/-- Compression of block 14. -/
theorem c2j_step14 :
    processChunk ⟨2239344049, 323630496, 1064160002, 1029555468, 2157615498, 3834125711,
    1653766079, 3349973017⟩ [1986359923, 574235170, 2100044397, 1702062125, 1684960034,
    981148261, 1851875948, 1701061178, 1717660787, 1697391212, 1769174117, 1848472932,
    1881291298, 573317740, 1769174117, 1848472675] = ⟨211130218, 2084222763, 3113305498,
    3199267240, 1330363497, 3898358154, 2095952785, 3035233953⟩ := by
  decide

/-- Compression of block 15. -/
theorem c2j_step15 :
    processChunk ⟨211130218, 2084222763, 3113305498, 3199267240, 1330363497, 3898358154,
    2095952785, 3035233953⟩ [1881291298, 578628642, 1835365490, 1768125218, 981148261,
    1851875948, 1701061178, 1717660787, 1697391212, 1769174117, 1848467812, 1685218675,
    1931622946, 573317744, 1635018786, 975315581] = ⟨3768549903, 2791110788, 4217005569,
    2888673542, 2341453807, 2819422444, 3491326309, 1923177640⟩ := by
  decide

/-- Compression of block 16. -/
theorem c2j_step16 :
    processChunk ⟨3768549903, 2791110788, 4217005569, 2888673542, 2341453807, 2819422444,
    3491326309, 1923177640⟩ [2105376768, 0, 0, 0, 0, 0, 0, 0, 0, 0, 0, 0, 0, 0, 0, 7696] =
    ⟨1231753051, 1895588163, 1416695558, 2778237333, 3197807234, 4276868823, 3405653356,
    3403519896⟩ := by
  decide

/-- The full digest, assembled block by block. -/
theorem c2j_digest :
    sha256 (strBytes (jsonMarshal cfgC2.options)) = ⟨1231753051, 1895588163, 1416695558, 2778237333, 3197807234, 4276868823, 3405653356, 3403519896⟩ := by
  rw [sha256_foldl, c2j_chunks, List.foldl_cons, c2j_step1, List.foldl_cons, c2j_step2,
  List.foldl_cons, c2j_step3, List.foldl_cons, c2j_step4, List.foldl_cons, c2j_step5,
  List.foldl_cons, c2j_step6, List.foldl_cons, c2j_step7, List.foldl_cons, c2j_step8,
  List.foldl_cons, c2j_step9, List.foldl_cons, c2j_step10, List.foldl_cons, c2j_step11,
  List.foldl_cons, c2j_step12, List.foldl_cons, c2j_step13, List.foldl_cons, c2j_step14,
  List.foldl_cons, c2j_step15, List.foldl_cons, c2j_step16, List.foldl_nil]

/-- The hex rendering of the digest. -/
theorem c2j_hex :
    sha256hex (strBytes (jsonMarshal cfgC2.options)) = "496b0f5b70fc614354710f06a5988995be9aaa82feebd6d7cafe256ccadd9798" := by
  simp only [sha256hex, c2j_digest]
  decide

/-- The 64-byte blocks of the padded serialized form, as 32-bit words. -/
theorem c2y_chunks :
    chunks16 (words16 (shaPad (strBytes (marshalTo cfgC2.options)))) =
      [[1735159650, 1634479724, 1869032812, 1702258028, 975178343, 1819239009, 1814983788,
      1932354405, 1920216422, 1768711482, 539977076, 1664055141, 1651336563, 1747940460,
      1932487981, 1731014703], [1953264430, 1668445194, 1735159650, 1634479732, 1819487595,
      1702440294, 1768711482, 539977076, 1664055141, 1651336563, 1747940460, 1932487981,
      1731014703, 1953264430, 1801812234, 1735159650], [1634479732, 1819487587, 1630365289,
      1818573344, 795178083, 796353890, 1835365224, 796159091, 795684199, 758132579,
      1630430066, 1946838892, 1868718444, 778925164, 1933189236, 1920296202], [1735159650,
      1634479734, 1701996902, 2033017704, 1634299437, 1869507705, 975201889, 1819501834,
      1735159650, 1634479726, 1865247088, 1983265312, 1717660787, 1695180652, 1868718444,
      778331508], [1701016621, 1701733488, 1869180532, 1933189222, 1634497381, 174550127,
      1650551854, 1634495599, 1999467109, 1836020837, 761554292, 1701016681, 1869494816,
      1717660787, 1695180652, 1868718444], [778331508, 1701016621, 1768977974, 975201889,
      1819501834, 1835365224, 778921331, 1747876463, 1852124513, 2002874981, 1852142451,
      761881658, 543623789, 1702062126, 1835365224, 779121257], [1835102841, 761622116,
      1886349678, 1949966346, 1835365224, 778921331, 1747875689, 1919248245, 1634886701,
      1701733488, 1869180532, 1933189130, 1835365224, 778921331, 1747872367, 1768828257],
      [1684304485, 1936931360, 174941555, 1747873125, 1936207466, 1869180461, 1634938230,
      1869899122, 975201889, 1819501834, 1835365224, 778202991, 1953723506, 1634741861,
      1851875948, 1701067296], [1953658213, 174941555, 1747870319, 1869902708, 1918988334,
      1633971561, 1849303149, 761357421, 1768819309, 1702062126, 1651470196, 1937011297,
      1882089840, 1983130990, 1702131567, 1919629856], [174941555, 1747870319, 1869902708,
      1918988334, 1684366945, 1970041901, 1852142711, 1869769517, 1886350441, 1668889120,
      174941555, 1747870319, 1869902708, 1918988334, 1633973861, 1920231795], [1697472868,
      1685218675, 1933189130, 1835365224, 778202991, 1953723506, 1634741878, 1869899122,
      1933189130, 1835365224, 778202991, 1953723506, 1634741875, 1702000229, 1920154144,
      174941555], [1747874401, 1718890084, 1635017005, 1684632122, 537554277, 1936207474,
      1634104366, 1768828269, 1701670770, 2033852532, 1920296202, 1835365224, 779247974,
      1949199461, 1635149101, 1869491571], [1752527972, 1870097978, 543580524, 1936001645,
      1702062126, 2003399269, 1735745906, 1680765029, 1920166259, 1952804468, 762013029,
      1885432937, 1986345504, 805989733, 1936207479, 1769104743], [1969320548, 778465138,
      1667575145, 1853121906, 1717658469, 762208621, 1698308212, 1920296202, 1835365224,
      779577714, 1701279073, 1919168108, 1769174117, 1848471663, 1920219680, 805991269],
      [1920362851, 1702047329, 1885941356, 1700881509, 1915580530, 1870166330, 544502389,
      1695183717, 1920362851, 1702047329, 1885941367, 1700950644, 1664753766, 1634497381,
      175334770, 1986618213], [1932419440, 1764650341, 1936210464, 1717660787, 1695183717,
      1920362851, 1702047329, 1885941360, 1701147181, 1684632419, 1870030194, 2033852518,
      1634497381, 175334770, 1986618213, 1932419440], [1764647268, 1835626042, 543580524,
      1936001651, 1702000233, 1667593006, 1634756910, 1937012078, 762537330, 1986359923,
      975178355, 1702000233, 1667593006, 1835365224, 761556595, 778399329], [1651271012,
      975201889, 1819501834, 1936028278, 1768121715, 778921331, 1747805294, 1932422249,
      1937007982, 762668144, 975178355, 1702000233, 1667593006, 1835365224, 761556595,
      778856819], [1952804397, 1952673850, 537555813, 1920362851, 1702047341, 1702130281,
      1668492901, 1851875948, 1701067296, 1717660787, 1695183717, 1920362851, 1702047341,
      1702130281, 1668492908, 1769174117], [1848467812, 1685218675, 1933189130, 1936028278,
      1768121715, 778921332, 1919509363, 779116916, 1748639754, 2147483648, 0, 0, 0, 0, 0,
      10016]] := by
  decide

/-- Compression of block 1. -/
theorem c2y_step1 :
    processChunk ⟨1779033703, 3144134277, 1013904242, 2773480762, 1359893119, 2600822924,
    528734635, 1541459225⟩ [1735159650, 1634479724, 1869032812, 1702258028, 975178343,
    1819239009, 1814983788, 1932354405, 1920216422, 1768711482, 539977076, 1664055141,
    1651336563, 1747940460, 1932487981, 1731014703] = ⟨1845204022, 1383369718, 3293936103,
    2954731227, 4291615155, 721829032, 3032976158, 3482662545⟩ := by
  decide

/-- Compression of block 2. -/
theorem c2y_step2 :
    processChunk ⟨1845204022, 1383369718, 3293936103, 2954731227, 4291615155, 721829032,
    3032976158, 3482662545⟩ [1953264430, 1668445194, 1735159650, 1634479732, 1819487595,
    1702440294, 1768711482, 539977076, 1664055141, 1651336563, 1747940460, 1932487981,
    1731014703, 1953264430, 1801812234, 1735159650] = ⟨2630706565, 2034811120, 3581066103,
    696814856, 578242810, 2092316133, 2690094607, 958778824⟩ := by
  decide

/-- Compression of block 3. -/
theorem c2y_step3 :
    processChunk ⟨2630706565, 2034811120, 3581066103, 696814856, 578242810, 2092316133,
    2690094607, 958778824⟩ [1634479732, 1819487587, 1630365289, 1818573344, 795178083,
    796353890, 1835365224, 796159091, 795684199, 758132579, 1630430066, 1946838892, 1868718444,
    778925164, 1933189236, 1920296202] = ⟨2025529757, 955545954, 4287637014, 2140366637,
    3893142706, 1831391135, 3938499724, 456862003⟩ := by
  decide

/-- Compression of block 4. -/
theorem c2y_step4 :
    processChunk ⟨2025529757, 955545954, 4287637014, 2140366637, 3893142706, 1831391135,
    3938499724, 456862003⟩ [1735159650, 1634479734, 1701996902, 2033017704, 1634299437,
    1869507705, 975201889, 1819501834, 1735159650, 1634479726, 1865247088, 1983265312,
    1717660787, 1695180652, 1868718444, 778331508] = ⟨3888378005, 1366545838, 578211837,
    379004540, 2863171533, 537726528, 551363269, 1947565072⟩ := by
  decide

/-- Compression of block 5. -/
theorem c2y_step5 :
    processChunk ⟨3888378005, 1366545838, 578211837, 379004540, 2863171533, 537726528,
    551363269, 1947565072⟩ [1701016621, 1701733488, 1869180532, 1933189222, 1634497381,
    174550127, 1650551854, 1634495599, 1999467109, 1836020837, 761554292, 1701016681,
    1869494816, 1717660787, 1695180652, 1868718444] = ⟨1584847076, 477322922, 1081714831,
    1842588979, 98692441, 3116426022, 492333160, 3942036867⟩ := by
  decide

/-- Compression of block 6. -/
theorem c2y_step6 :
    processChunk ⟨1584847076, 477322922, 1081714831, 1842588979, 98692441, 3116426022,
    492333160, 3942036867⟩ [778331508, 1701016621, 1768977974, 975201889, 1819501834,
    1835365224, 778921331, 1747876463, 1852124513, 2002874981, 1852142451, 761881658,
    543623789, 1702062126, 1835365224, 779121257] = ⟨189296767, 2131945144, 935704715,
    4185950240, 1350521653, 1651230555, 4230366602, 3505010929⟩ := by
  decide

/-- Compression of block 7. -/
theorem c2y_step7 :
    processChunk ⟨189296767, 2131945144, 935704715, 4185950240, 1350521653, 1651230555,
    4230366602, 3505010929⟩ [1835102841, 761622116, 1886349678, 1949966346, 1835365224,
    778921331, 1747875689, 1919248245, 1634886701, 1701733488, 1869180532, 1933189130,
    1835365224, 778921331, 1747872367, 1768828257] = ⟨3483874882, 1545907427, 3827828865,
    3302422969, 1180124542, 3810720157, 2067817061, 1798151253⟩ := by
  decide

/-- Compression of block 8. -/
theorem c2y_step8 :
    processChunk ⟨3483874882, 1545907427, 3827828865, 3302422969, 1180124542, 3810720157,
    2067817061, 1798151253⟩ [1684304485, 1936931360, 174941555, 1747873125, 1936207466,
    1869180461, 1634938230, 1869899122, 975201889, 1819501834, 1835365224, 778202991,
    1953723506, 1634741861, 1851875948, 1701067296] = ⟨2612423120, 1614088409, 507412237,
    3967096114, 1602736169, 3322916161, 2210460828, 2367816464⟩ := by
  decide

/-- Compression of block 9. -/
theorem c2y_step9 :
    processChunk ⟨2612423120, 1614088409, 507412237, 3967096114, 1602736169, 3322916161,
    2210460828, 2367816464⟩ [1953658213, 174941555, 1747870319, 1869902708, 1918988334,
    1633971561, 1849303149, 761357421, 1768819309, 1702062126, 1651470196, 1937011297,
    1882089840, 1983130990, 1702131567, 1919629856] = ⟨2102475294, 3422417581, 3445293545,
    1793944244, 1063850045, 3012959511, 13959840, 650621937⟩ := by
  decide

/-- Compression of block 10. -/
theorem c2y_step10 :
    processChunk ⟨2102475294, 3422417581, 3445293545, 1793944244, 1063850045, 3012959511,
    13959840, 650621937⟩ [174941555, 1747870319, 1869902708, 1918988334, 1684366945,
    1970041901, 1852142711, 1869769517, 1886350441, 1668889120, 174941555, 1747870319,
    1869902708, 1918988334, 1633973861, 1920231795] = ⟨266421282, 3058141080, 19658045,
    1968228647, 3809149601, 3187803461, 2082253091, 210858583⟩ := by
  decide

/-- Compression of block 11. -/
theorem c2y_step11 :
    processChunk ⟨266421282, 3058141080, 19658045, 1968228647, 3809149601, 3187803461,
    2082253091, 210858583⟩ [1697472868, 1685218675, 1933189130, 1835365224, 778202991,
    1953723506, 1634741878, 1869899122, 1933189130, 1835365224, 778202991, 1953723506,
    1634741875, 1702000229, 1920154144, 174941555] = ⟨3690793803, 3902381150, 3986591822,
    2993218848, 3949162003, 1870349850, 3520962735, 1721830517⟩ := by
  decide

/-- Compression of block 12. -/
theorem c2y_step12 :
    processChunk ⟨3690793803, 3902381150, 3986591822, 2993218848, 3949162003, 1870349850,
    3520962735, 1721830517⟩ [1747874401, 1718890084, 1635017005, 1684632122, 537554277,
    1936207474, 1634104366, 1768828269, 1701670770, 2033852532, 1920296202, 1835365224,
    779247974, 1949199461, 1635149101, 1869491571] = ⟨165720130, 4167589978, 1645077599,
    2666814038, 1950723118, 185518753, 1147479090, 4255195069⟩ := by
  decide

/-- Compression of block 13. -/
theorem c2y_step13 :
    processChunk ⟨165720130, 4167589978, 1645077599, 2666814038, 1950723118, 185518753,
    1147479090, 4255195069⟩ [1752527972, 1870097978, 543580524, 1936001645, 1702062126,
    2003399269, 1735745906, 1680765029, 1920166259, 1952804468, 762013029, 1885432937,
    1986345504, 805989733, 1936207479, 1769104743] = ⟨4148225557, 123446468, 3746226252,
    238259568, 317370589, 3790206157, 4269196374, 3005142416⟩ := by
  decide

/-- Compression of block 14. -/
theorem c2y_step14 :
    processChunk ⟨4148225557, 123446468, 3746226252, 238259568, 317370589, 3790206157,
    4269196374, 3005142416⟩ [1969320548, 778465138, 1667575145, 1853121906, 1717658469,
    762208621, 1698308212, 1920296202, 1835365224, 779577714, 1701279073, 1919168108,
    1769174117, 1848471663, 1920219680, 805991269] = ⟨2687614925, 1236021020, 2936766870,
    341383905, 3834127437, 2645972671, 3522358832, 4214027828⟩ := by
  decide

/-- Compression of block 15. -/
theorem c2y_step15 :
    processChunk ⟨2687614925, 1236021020, 2936766870, 341383905, 3834127437, 2645972671,
    3522358832, 4214027828⟩ [1920362851, 1702047329, 1885941356, 1700881509, 1915580530,
    1870166330, 544502389, 1695183717, 1920362851, 1702047329, 1885941367, 1700950644,
    1664753766, 1634497381, 175334770, 1986618213] = ⟨1260110817, 1390156303, 509774030,
    2442487499, 2119225592, 2098549352, 1551979051, 428298594⟩ := by
  decide

/-- Compression of block 16. -/
theorem c2y_step16 :
    processChunk ⟨1260110817, 1390156303, 509774030, 2442487499, 2119225592, 2098549352,
    1551979051, 428298594⟩ [1932419440, 1764650341, 1936210464, 1717660787, 1695183717,
    1920362851, 1702047329, 1885941360, 1701147181, 1684632419, 1870030194, 2033852518,
    1634497381, 175334770, 1986618213, 1932419440] = ⟨2079264311, 3393492501, 1308738730,
    4109227020, 539553515, 127794583, 2210751394, 1194790454⟩ := by
  decide

/-- Compression of block 17. -/
theorem c2y_step17 :
    processChunk ⟨2079264311, 3393492501, 1308738730, 4109227020, 539553515, 127794583,
    2210751394, 1194790454⟩ [1764647268, 1835626042, 543580524, 1936001651, 1702000233,
    1667593006, 1634756910, 1937012078, 762537330, 1986359923, 975178355, 1702000233,
    1667593006, 1835365224, 761556595, 778399329] = ⟨278046672, 2458998727, 2273149274,
    3870873158, 3923805157, 2996945690, 49051844, 2090386281⟩ := by
  decide

/-- Compression of block 18. -/
theorem c2y_step18 :
    processChunk ⟨278046672, 2458998727, 2273149274, 3870873158, 3923805157, 2996945690,
    49051844, 2090386281⟩ [1651271012, 975201889, 1819501834, 1936028278, 1768121715,
    778921331, 1747805294, 1932422249, 1937007982, 762668144, 975178355, 1702000233,
    1667593006, 1835365224, 761556595, 778856819] = ⟨300755175, 3167426028, 2832869927,
    1297301126, 2057327353, 676191015, 3874897251, 3737500058⟩ := by
  decide

/-- Compression of block 19. -/
theorem c2y_step19 :
    processChunk ⟨300755175, 3167426028, 2832869927, 1297301126, 2057327353, 676191015,
    3874897251, 3737500058⟩ [1952804397, 1952673850, 537555813, 1920362851, 1702047341,
    1702130281, 1668492901, 1851875948, 1701067296, 1717660787, 1695183717, 1920362851,
    1702047341, 1702130281, 1668492908, 1769174117] = ⟨1453508534, 637237229, 3413164555,
    1595040240, 847816123, 269943734, 3990750694, 2577988012⟩ := by
  decide

/-- Compression of block 20. -/
theorem c2y_step20 :
    processChunk ⟨1453508534, 637237229, 3413164555, 1595040240, 847816123, 269943734,
    3990750694, 2577988012⟩ [1848467812, 1685218675, 1933189130, 1936028278, 1768121715,
    778921332, 1919509363, 779116916, 1748639754, 2147483648, 0, 0, 0, 0, 0, 10016] =
    ⟨1025616174, 2855099994, 1047406708, 1223611653, 1677028850, 1605863317, 996078072,
    1183335294⟩ := by
  decide

/-- The full digest, assembled block by block. -/
theorem c2y_digest :
    sha256 (strBytes (marshalTo cfgC2.options)) = ⟨1025616174, 2855099994, 1047406708, 1223611653, 1677028850, 1605863317, 996078072, 1183335294⟩ := by
  rw [sha256_foldl, c2y_chunks, List.foldl_cons, c2y_step1, List.foldl_cons, c2y_step2,
  List.foldl_cons, c2y_step3, List.foldl_cons, c2y_step4, List.foldl_cons, c2y_step5,
  List.foldl_cons, c2y_step6, List.foldl_cons, c2y_step7, List.foldl_cons, c2y_step8,
  List.foldl_cons, c2y_step9, List.foldl_cons, c2y_step10, List.foldl_cons, c2y_step11,
  List.foldl_cons, c2y_step12, List.foldl_cons, c2y_step13, List.foldl_cons, c2y_step14,
  List.foldl_cons, c2y_step15, List.foldl_cons, c2y_step16, List.foldl_cons, c2y_step17,
  List.foldl_cons, c2y_step18, List.foldl_cons, c2y_step19, List.foldl_cons, c2y_step20,
  List.foldl_nil]

/-- The hex rendering of the digest. -/
theorem c2y_hex :
    sha256hex (strBytes (marshalTo cfgC2.options)) = "3d21a92eaa2d5e5a3e6e287448eed50563f56df25fb787953b5ef1f84688437e" := by
  simp only [sha256hex, c2y_digest]
  decide

/-- C2 counterexample: for a concrete successful render, the checksum (the
SHA-256 of the JSON serialization) differs from the SHA-256 of the bytes
returned by `Raw()` (the wire-form serialization), refuting the claim that
the checksum is computed over the `Raw()` bytes. -/
theorem C2_checksum_cex :
    New optsC2 = .ok cfgC2 ∧
    Config.Checksum cfgC2 ≠ sha256hex (strBytes (Config.Raw cfgC2)) := by
  refine ⟨by rfl, ?_⟩
  have hjson : cfgC2.rawjson = jsonMarshal cfgC2.options := by rfl
  have hraw : Config.Raw cfgC2 = marshalTo cfgC2.options := by rfl
  have h1 : Config.Checksum cfgC2 = "496b0f5b70fc614354710f06a5988995be9aaa82feebd6d7cafe256ccadd9798" := by
    show sha256hex (strBytes cfgC2.rawjson) = _
    rw [hjson, c2j_hex]
  have h2 : sha256hex (strBytes (Config.Raw cfgC2)) = "3d21a92eaa2d5e5a3e6e287448eed50563f56df25fb787953b5ef1f84688437e" := by
    rw [hraw, c2y_hex]
  rw [h1, h2]
  decide

end Operator
